import Mathlib

/-!
Verification development for the DNA-Health-Analysis report generator
(`generate_report.py`).  The definitions below are a shallow embedding of the
Python source: dictionaries become association lists, `str | None` values
become `Option String`, Python truthiness is made explicit, and Python's
substring operator `in` becomes list-infix on the underlying character data.
-/

namespace DnaReport

/-- Python `needle in hay` on strings (substring test). -/
def py_in (needle hay : String) : Bool := decide (needle.data <:+: hay.data)

/-- Python truthiness of a `str | None` value: `None` and `""` are falsy. -/
def str_truthy : Option String → Bool
  | none => false
  | some s => !(s == "")

/-- Python `x or d` for `x : str | None` with a string default. -/
def py_or (o : Option String) (d : String) : String :=
  match o with
  | none => d
  | some s => if s == "" then d else s

/-- Python `str(x)` for `x : str | None` (as used in f-strings): `None` prints as `"None"`. -/
def py_str : Option String → String
  | none => "None"
  | some s => s

/-- Python `", ".join(l)` (also any separator). -/
def join_sep (sep : String) : List String → String
  | [] => ""
  | [x] => x
  | x :: xs => x ++ sep ++ join_sep sep xs

/-- Lower-cased character data of a string (Python `.lower()` on ASCII text). -/
def lc_data (s : String) : List Char := s.data.map Char.toLower

/-- Python `s.lower()` as a string. -/
def lower_str (s : String) : String := ⟨lc_data s⟩

/-- `hay.endswith(post)` from Python. -/
def str_ends_with (hay post : String) : Bool := decide (post.data <:+ hay.data)

/-- Genotype store: Python `dict[str, str]` as an association list. -/
abbrev Genotypes := List (String × String)

/-- Dictionary lookup `g.get(rsid)`. -/
def g_get (g : Genotypes) (rsid : String) : Option String :=
  (g.find? (fun p => p.1 == rsid)).map (·.2)

/-- Dictionary lookup with default `g.get(rsid, "")`. -/
def g_get_default (g : Genotypes) (rsid : String) : String :=
  (g_get g rsid).getD ""

/-- Python `rsid in g` (key membership, independent of value truthiness). -/
def g_has_key (g : Genotypes) (rsid : String) : Bool :=
  (g.find? (fun p => p.1 == rsid)).isSome

/-- One entry of the variant-verification feed (the dictionary fields the core reads). -/
structure VEntry where
  match_status : Option String
  ensembl_alleles : Option String
  proxy_note : Option String
deriving DecidableEq

/-- `variant_lookup : dict[str, dict] | None`. -/
abbrev VLookup := Option (List (String × VEntry))

/-- Python truthiness of the lookup: `None` and the empty dict are falsy. -/
def vl_truthy : VLookup → Bool
  | none => false
  | some l => !l.isEmpty

/-- `variant_lookup.get(rsid)` (on an already-truthy lookup). -/
def vl_entries : VLookup → List (String × VEntry)
  | none => []
  | some l => l

/-- `variant_lookup.get(rsid)`; `none` when the lookup is `None`. -/
def vl_get (vl : VLookup) (rsid : String) : Option VEntry :=
  match vl with
  | none => none
  | some l => (l.find? (fun p => p.1 == rsid)).map (·.2)

/-- `_has_allele(genotype, allele)` from `generate_report.py`:
`bool(genotype and allele in genotype)`. -/
def has_allele (genotype : Option String) (allele : String) : Bool :=
  match genotype with
  | none => false
  | some g => !(g == "") && py_in allele g

/-- `_allele_count(genotype, allele)`: number of characters of the genotype equal
to the (single-character) allele string. -/
def allele_count (genotype : Option String) (allele : String) : Nat :=
  match genotype with
  | none => 0
  | some g => if g == "" then 0 else g.data.countP (fun b => allele.data == [b])

/-- `_variant_match_ok(rsid, variant_lookup)`. -/
def variant_match_ok (rsid : String) (vl : VLookup) : Bool :=
  if !vl_truthy vl then true
  else
    match vl_get vl rsid with
    | none => true
    | some e =>
      !(e.match_status == some "mismatch" || e.match_status == some "non_snp_mismatch")

/-- The complement table `{"A": "T", "T": "A", "C": "G", "G": "C"}.get(risk_allele)`. -/
def complement_of (risk_allele : String) : Option String :=
  if risk_allele == "A" then some "T"
  else if risk_allele == "T" then some "A"
  else if risk_allele == "C" then some "G"
  else if risk_allele == "G" then some "C"
  else none

/-- `_risk_allele_count(rsid, genotype, risk_allele, variant_lookup)`. -/
def risk_allele_count (rsid : String) (genotype : Option String)
    (risk_allele : String) (vl : VLookup) : Nat :=
  if !str_truthy genotype then 0
  else if !variant_match_ok rsid vl then 0
  else if has_allele genotype risk_allele then allele_count genotype risk_allele
  else if !vl_truthy vl then 0
  else
    match vl_get vl rsid with
    | none => 0
    | some entry =>
      match complement_of risk_allele with
      | none => 0
      | some comp =>
        let ensembl := py_or entry.ensembl_alleles ""
        if entry.match_status == some "reverse_complement" then allele_count genotype comp
        else if !(ensembl == "") && !(py_in risk_allele ensembl) && py_in comp ensembl then
          allele_count genotype comp
        else 0

/-- `_risk_allele_present`. -/
def risk_allele_present (rsid : String) (genotype : Option String)
    (risk_allele : String) (vl : VLookup) : Bool :=
  risk_allele_count rsid genotype risk_allele vl > 0

/-- `_risk_zygosity_label`. -/
def risk_zygosity_label (rsid : String) (genotype : Option String)
    (risk_allele : String) (vl : VLookup) : String :=
  let count := risk_allele_count rsid genotype risk_allele vl
  if count ≥ 2 then "homozygous risk allele"
  else if count == 1 then "heterozygous risk allele"
  else "risk-allele status uncertain"

/-- `_format_pgx_hit`. -/
def format_pgx_hit (label rsid : String) (genotype : Option String)
    (risk_allele : String) (vl : VLookup) : String :=
  let genotype_text := py_or genotype "NA"
  let zygosity := risk_zygosity_label rsid genotype risk_allele vl
  label ++ " (" ++ rsid ++ " " ++ genotype_text ++ "; " ++ zygosity ++ ")"

/-- `_risk_card(...)`: the risk-card dictionary constructor. -/
structure Card where
  label : String
  level : String
  description : String
  action : String
  evidence : String
  category : String
deriving DecidableEq

/-- `_risk_card` as a function (field order as in the source call). -/
def risk_card (label level description action evidence category : String) : Card :=
  { label := label, level := level, description := description, action := action,
    evidence := evidence, category := category }

/-- `_warfarin_panel_status(genotypes)`. -/
def warfarin_panel_status (g : Genotypes) : String :=
  let has_vkorc1 := str_truthy (g_get g "rs9923231")
  let has_rs12777823 := str_truthy (g_get g "rs12777823")
  if has_vkorc1 && has_rs12777823 then
    "Warfarin panel status: VKORC1 present; rs12777823 present."
  else if has_vkorc1 && !has_rs12777823 then
    "Warfarin panel status: VKORC1 present; rs12777823 missing in this file build (ancestry modifier). Panel partial."
  else if !has_vkorc1 && has_rs12777823 then
    "Warfarin panel status: VKORC1 missing in this file build; rs12777823 present. Dosing algorithm incomplete."
  else
    "Warfarin panel status: VKORC1 and rs12777823 missing in this file build. Dosing algorithm incomplete."

/-- `_warfarin_action_guidance(genotypes)`. -/
def warfarin_action_guidance (g : Genotypes) : String :=
  let has_vkorc1 := str_truthy (g_get g "rs9923231")
  let has_rs12777823 := str_truthy (g_get g "rs12777823")
  let missing := (if !has_vkorc1 then ["VKORC1"] else []) ++
    (if !has_rs12777823 then ["rs12777823"] else [])
  if !missing.isEmpty then
    "Partial warfarin genetics available (" ++ join_sep " / " missing ++
      " missing in this file build); do not use a full CPIC dosing calculator from this file alone. Use clinical dosing with INR monitoring, and consider clinical-grade PGx if warfarin is planned."
  else
    "Warfarin genetics panel appears complete in this file; combine CPIC-guided dosing with clinical judgment and INR monitoring."

/-- Result record of `_nat2_profile`. -/
structure Nat2Profile where
  status : String
  slow_count : Option Nat
  missing : List String
deriving DecidableEq

/-- `_nat2_profile(genotypes)`. -/
def nat2_profile (g : Genotypes) : Nat2Profile :=
  let slow_alleles : List (String × String) :=
    [("rs1801280", "C"), ("rs1799930", "A"), ("rs1799931", "A")]
  let missing := (slow_alleles.map (·.1)).filter (fun r => !g_has_key g r)
  if !missing.isEmpty then ⟨"unknown", none, missing⟩
  else
    let slow_count := slow_alleles.foldl
      (fun acc p => acc + (g_get_default g p.1).data.countP (fun b => p.2.data == [b])) 0
    if slow_count ≥ 2 then ⟨"likely_slow", some slow_count, []⟩
    else if slow_count == 1 then ⟨"indeterminate", some slow_count, []⟩
    else ⟨"no_slow_markers", some slow_count, []⟩

/-- One marker row of the `_HIGH_EVIDENCE_PGX_ESCALATION` table. -/
structure EscMarker where
  rsid : String
  risk_allele : String
  display : String
deriving DecidableEq

/-- One rule of the `_HIGH_EVIDENCE_PGX_ESCALATION` table (`desc_pre`/`desc_suf`
are the source's `description_prefix`/`description_suffix` keys). -/
structure EscRule where
  label : String
  level : String
  desc_pre : String
  desc_suf : String
  action : String
  evidence : String
  markers : List EscMarker
deriving DecidableEq

/-- The module-level `_HIGH_EVIDENCE_PGX_ESCALATION` rule table. -/
def high_evidence_pgx_escalation : List EscRule :=
  [ { label := "Fluoropyrimidine Toxicity"
    , level := "high"
    , desc_pre := "DPYD variant(s) detected: "
    , desc_suf := "."
    , action := "Confirm with clinical-grade DPYD testing before 5-FU/capecitabine; dosing changes may be needed."
    , evidence := "CPIC"
    , markers :=
      [ ⟨"rs3918290", "A", "rs3918290 (*2A)"⟩
      , ⟨"rs67376798", "T", "rs67376798 (c.2846A>T)"⟩
      , ⟨"rs55886062", "G", "rs55886062 (c.1679T>G)"⟩
      , ⟨"rs56038477", "A", "rs56038477 (HapB3 tag)"⟩
      , ⟨"rs75017182", "G", "rs75017182 (HapB3)"⟩ ] }
  , { label := "Statin Myopathy Risk"
    , level := "med"
    , desc_pre := "SLCO1B1 risk marker(s) detected: "
    , desc_suf := "."
    , action := "If prescribed simvastatin, consider lower dose or alternative statin per CPIC guidance."
    , evidence := "CPIC"
    , markers := [ ⟨"rs4149056", "C", "SLCO1B1 rs4149056"⟩ ] }
  , { label := "Tacrolimus Metabolism"
    , level := "med"
    , desc_pre := "CYP3A5 marker(s) detected: "
    , desc_suf := "."
    , action := "Tacrolimus dosing should follow CPIC CYP3A5 guidance."
    , evidence := "CPIC"
    , markers := [ ⟨"rs776746", "A", "CYP3A5 rs776746"⟩ ] }
  , { label := "Atazanavir Hyperbilirubinemia"
    , level := "med"
    , desc_pre := "UGT1A1 reduced-function marker(s) detected: "
    , desc_suf := "."
    , action := "Atazanavir use should follow CPIC UGT1A1 guidance."
    , evidence := "CPIC"
    , markers :=
      [ ⟨"rs4148323", "A", "UGT1A1*6 (rs4148323)"⟩
      , ⟨"rs887829", "T", "UGT1A1*28 proxy (rs887829)"⟩ ] } ]

/-- The marker hits a single escalation rule collects
(the inner loop of `_escalate_high_evidence_pgx`). -/
def esc_hits (g : Genotypes) (vl : VLookup) (rule : EscRule) : List String :=
  rule.markers.filterMap (fun m =>
    if risk_allele_present m.rsid (g_get g m.rsid) m.risk_allele vl then some m.display
    else none)

/-- The card (if any) a single escalation rule contributes, given the label set
of the cards the pass was called with. -/
def esc_step (existing_labels : List String) (g : Genotypes) (vl : VLookup)
    (rule : EscRule) : Option Card :=
  if rule.label ∈ existing_labels then none
  else if (esc_hits g vl rule).isEmpty then none
  else some (risk_card rule.label rule.level
    (rule.desc_pre ++ join_sep ", " (esc_hits g vl rule) ++ rule.desc_suf)
    rule.action rule.evidence "clinical")

/-- `_escalate_high_evidence_pgx(cards, genotypes, variant_lookup)`. -/
def escalate_high_evidence_pgx (cards : List Card) (g : Genotypes) (vl : VLookup) :
    List Card :=
  cards ++ high_evidence_pgx_escalation.filterMap
    (esc_step (cards.map (·.label)) g vl)

/-- CYP2C9 rule block of `_build_risk_cards`. -/
def rule_cyp2c9 (g : Genotypes) (vl : VLookup) : List Card :=
  let cyp2c9_2 := g_get g "rs1799853"
  let cyp2c9_3 := g_get g "rs1057910"
  let cyp2c9_5 := g_get g "rs28371686"
  let cyp2c9_8 := g_get g "rs7900194"
  let cyp2c9_11 := g_get g "rs28371685"
  let c_2 := risk_allele_count "rs1799853" cyp2c9_2 "T" vl
  let c_3 := risk_allele_count "rs1057910" cyp2c9_3 "C" vl
  let c_5 := risk_allele_count "rs28371686" cyp2c9_5 "G" vl
  let c_8 := risk_allele_count "rs7900194" cyp2c9_8 "A" vl
  let c_11 := risk_allele_count "rs28371685" cyp2c9_11 "T" vl
  let variant_count := c_2 + c_3 + c_5 + c_8 + c_11
  if variant_count != 0 then
    let level := if variant_count == 1 then "med" else "high"
    let detected :=
      (if c_2 != 0 then [format_pgx_hit "CYP2C9*2" "rs1799853" cyp2c9_2 "T" vl] else []) ++
      (if c_3 != 0 then [format_pgx_hit "CYP2C9*3" "rs1057910" cyp2c9_3 "C" vl] else []) ++
      (if c_5 != 0 then [format_pgx_hit "CYP2C9*5" "rs28371686" cyp2c9_5 "G" vl] else []) ++
      (if c_8 != 0 then [format_pgx_hit "CYP2C9*8" "rs7900194" cyp2c9_8 "A" vl] else []) ++
      (if c_11 != 0 then [format_pgx_hit "CYP2C9*11" "rs28371685" cyp2c9_11 "T" vl] else [])
    [risk_card "CYP2C9 Reduced Function" level
      ("CYP2C9 decreased-function allele(s) detected (" ++ join_sep ", " detected ++
        "); affects warfarin and some NSAID dosing.")
      (warfarin_action_guidance g ++ " " ++ warfarin_panel_status g)
      "CPIC" "clinical"]
  else []

/-- Factor V Leiden rule block. -/
def rule_factor_v (g : Genotypes) (vl : VLookup) : List Card :=
  if risk_allele_present "rs6025" (g_get g "rs6025") "A" vl then
    [risk_card "Clotting Risk" "high"
      "Factor V Leiden (rs6025) variant detected; elevated venous thrombosis risk."
      "Inform clinician before surgery or hormone therapy." "ClinGen" "clinical"]
  else []

/-- Prothrombin G20210A rule block. -/
def rule_prothrombin (g : Genotypes) (vl : VLookup) : List Card :=
  let prothrombin := g_get g "rs1799963"
  if risk_allele_present "rs1799963" prothrombin "A" vl then
    [risk_card "Clotting Risk" "high"
      (format_pgx_hit "Prothrombin G20210A" "rs1799963" prothrombin "A" vl ++
        " detected; elevated venous thrombosis risk.")
      "Inform clinician before surgery or hormone therapy." "ClinGen" "clinical"]
  else []

/-- CYP2C19 rule block (clopidogrel response / increased function). -/
def rule_cyp2c19 (g : Genotypes) (vl : VLookup) : List Card :=
  let cyp2c19_2 := g_get g "rs4244285"
  let cyp2c19_3 := g_get g "rs4986893"
  let cyp2c19_17 := g_get g "rs12248560"
  let c_2 := risk_allele_count "rs4244285" cyp2c19_2 "A" vl
  let c_3 := risk_allele_count "rs4986893" cyp2c19_3 "A" vl
  let c_17 := risk_allele_count "rs12248560" cyp2c19_17 "T" vl
  let lof_count := c_2 + c_3
  let inc_count := c_17
  let missing :=
    (if cyp2c19_2.isNone then ["rs4244285"] else []) ++
    (if cyp2c19_3.isNone then ["rs4986893"] else []) ++
    (if cyp2c19_17.isNone then ["rs12248560"] else [])
  let phenotype : Option String :=
    if lof_count ≥ 2 then some "Likely poor metabolizer"
    else if lof_count == 1 then some "Likely intermediate metabolizer"
    else if inc_count ≥ 1 then some "Likely rapid/ultrarapid metabolizer"
    else none
  let level :=
    if lof_count ≥ 2 then "high"
    else if lof_count == 1 then "med"
    else if inc_count ≥ 1 then "med"
    else "low"
  let coverage_note :=
    if !missing.isEmpty then
      " Phenotype based on partial CYP2C19 panel; missing " ++ join_sep ", " missing ++ "."
    else ""
  if lof_count ≥ 1 then
    let detected :=
      (if c_2 != 0 then [format_pgx_hit "CYP2C19*2" "rs4244285" cyp2c19_2 "A" vl] else []) ++
      (if c_3 != 0 then [format_pgx_hit "CYP2C19*3" "rs4986893" cyp2c19_3 "A" vl] else [])
    if !detected.isEmpty then
      [risk_card "Clopidogrel Response" level
        (join_sep " / " detected ++ " detected; " ++ py_str phenotype ++
          ". Reduced clopidogrel activation." ++ coverage_note)
        "Discuss CPIC-guided antiplatelet selection with a clinician." "CPIC" "clinical"]
    else []
  else if inc_count ≥ 1 then
    [risk_card "CYP2C19 Increased Function" "med"
      (format_pgx_hit "CYP2C19*17" "rs12248560" cyp2c19_17 "T" vl ++ " detected; " ++
        py_str phenotype ++ ". Altered exposure for some CYP2C19 substrates." ++ coverage_note)
      "Consider CPIC guidance for CYP2C19 substrates (e.g., PPIs, voriconazole)." "CPIC" "clinical"]
  else []

/-- SLCO1B1 rule block (note: tests allele presence directly via `_has_allele`). -/
def rule_slco1b1 (g : Genotypes) : List Card :=
  let slco1b1 := g_get g "rs4149056"
  if has_allele slco1b1 "C" then
    let count := allele_count slco1b1 "C"
    let level := if count == 1 then "med" else "high"
    [risk_card "Statin Myopathy Risk" level
      ("SLCO1B1 rs4149056 (" ++ py_str slco1b1 ++ "): higher simvastatin myopathy risk.")
      "If prescribed simvastatin, consider lower dose or alternative statin per CPIC guidance."
      "CPIC" "clinical"]
  else []

/-- VKORC1 rule block (direct `_has_allele`). -/
def rule_vkorc1 (g : Genotypes) : List Card :=
  let vkorc1 := g_get g "rs9923231"
  if has_allele vkorc1 "T" then
    let count := allele_count vkorc1 "T"
    let level := if count == 1 then "med" else "high"
    [risk_card "Warfarin Sensitivity" level
      ("VKORC1 rs9923231 (" ++ py_str vkorc1 ++ "): increased warfarin sensitivity.")
      (warfarin_action_guidance g ++ " " ++ warfarin_panel_status g)
      "CPIC" "clinical"]
  else []

/-- CYP3A5 rule block. -/
def rule_cyp3a5 (g : Genotypes) (vl : VLookup) : List Card :=
  let cyp3a5 := g_get g "rs776746"
  if risk_allele_present "rs776746" cyp3a5 "A" vl then
    [risk_card "Tacrolimus Metabolism" "med"
      (format_pgx_hit "CYP3A5" "rs776746" cyp3a5 "A" vl ++
        "; expresser phenotype with higher tacrolimus clearance.")
      "Tacrolimus dosing should follow CPIC CYP3A5 guidance." "CPIC" "clinical"]
  else []

/-- CYP2B6 rule block. -/
def rule_cyp2b6 (g : Genotypes) (vl : VLookup) : List Card :=
  let cyp2b6_516 := g_get g "rs3745274"
  let cyp2b6_785 := g_get g "rs2279343"
  let markers :=
    (if risk_allele_present "rs3745274" cyp2b6_516 "T" vl then
      [format_pgx_hit "CYP2B6 516G>T" "rs3745274" cyp2b6_516 "T" vl] else []) ++
    (if risk_allele_present "rs2279343" cyp2b6_785 "G" vl then
      [format_pgx_hit "CYP2B6 785A>G" "rs2279343" cyp2b6_785 "G" vl] else [])
  if !markers.isEmpty then
    let missing :=
      (if cyp2b6_516.isNone then ["rs3745274"] else []) ++
      (if cyp2b6_785.isNone then ["rs2279343"] else [])
    let coverage_note :=
      if !missing.isEmpty then
        " Partial CYP2B6 panel; phenotype may be incomplete (missing " ++
          join_sep ", " missing ++ ")."
      else ""
    [risk_card "Efavirenz Metabolism" "med"
      ("CYP2B6 decreased-function marker(s) detected (" ++ join_sep ", " markers ++ ")." ++
        coverage_note)
      "Efavirenz dosing should follow CPIC CYP2B6 guidance; full haplotyping may be needed."
      "CPIC" "clinical"]
  else []

/-- UGT1A1 rule block (rs4148323 via the Resolver, rs887829 via `_has_allele`). -/
def rule_ugt1a1 (g : Genotypes) (vl : VLookup) : List Card :=
  let ugt1a1 := g_get g "rs4148323"
  let ugt1a1_proxy := g_get g "rs887829"
  let hits :=
    (if risk_allele_present "rs4148323" ugt1a1 "A" vl then
      [format_pgx_hit "UGT1A1*6" "rs4148323" ugt1a1 "A" vl] else []) ++
    (if has_allele ugt1a1_proxy "T" then
      [format_pgx_hit "UGT1A1*28 proxy" "rs887829" ugt1a1_proxy "T" vl] else [])
  if !hits.isEmpty then
    [risk_card "Atazanavir Hyperbilirubinemia" "med"
      ("UGT1A1 reduced-function marker(s) detected: " ++ join_sep ", " hits ++ ".")
      "Atazanavir use should follow CPIC UGT1A1 guidance." "CPIC" "clinical"]
  else []

/-- HLA-B*57:01 proxy rule block. -/
def rule_hla_b57 (g : Genotypes) : List Card :=
  if has_allele (g_get g "rs2395029") "G" then
    [risk_card "Abacavir Hypersensitivity" "high"
      "HLA-B*57:01 proxy (rs2395029) detected; abacavir hypersensitivity risk."
      "Confirm with clinical HLA-B*57:01 testing before abacavir." "CPIC" "clinical"]
  else []

/-- NAT2 rule block. -/
def rule_nat2 (g : Genotypes) : List Card :=
  if (nat2_profile g).status == "likely_slow" then
    [risk_card "Detox/Drug Metabolism" "med"
      "Likely NAT2 slow acetylator based on a partial SNP panel."
      "Confirm with clinical-grade PGx before dosing isoniazid/hydralazine/sulfasalazine; avoid smoking."
      "CPIC" "clinical"]
  else []

/-- ABCG2 rule block. -/
def rule_abcg2 (g : Genotypes) : List Card :=
  let abcg2 := g_get g "rs2231142"
  if has_allele abcg2 "A" then
    [risk_card "Statin Exposure (ABCG2)" "med"
      ("ABCG2 rs2231142 (" ++ py_str abcg2 ++
        ") detected; reduced transporter function can increase exposure.")
      "If prescribed rosuvastatin or other substrates, consider CPIC guidance."
      "CPIC" "clinical"]
  else []

/-- CYP4F2 rule block. -/
def rule_cyp4f2 (g : Genotypes) : List Card :=
  let cyp4f2 := g_get g "rs2108622"
  if has_allele cyp4f2 "T" then
    [risk_card "Warfarin Dose Modifier (CYP4F2)" "low"
      ("CYP4F2 rs2108622 (" ++ py_str cyp4f2 ++
        ") detected; may increase warfarin dose requirement.")
      (warfarin_action_guidance g ++ " " ++ warfarin_panel_status g)
      "CPIC" "clinical"]
  else []

/-- rs12777823 rule block. -/
def rule_rs12777823 (g : Genotypes) : List Card :=
  let cyp2c_cluster := g_get g "rs12777823"
  if has_allele cyp2c_cluster "A" then
    [risk_card "Warfarin Dose Modifier (rs12777823)" "med"
      ("rs12777823 (" ++ py_str cyp2c_cluster ++
        ") detected; dose modifier most relevant in African ancestry.")
      (warfarin_action_guidance g ++ " " ++ warfarin_panel_status g)
      "CPIC" "clinical"]
  else []

/-- The DPYD marker table of `_build_risk_cards`. -/
def dpyd_marker_table : List (String × String × String) :=
  [("rs3918290", "A", "DPYD*2A"), ("rs67376798", "T", "DPYD c.2846A>T"),
   ("rs55886062", "G", "DPYD c.1679T>G"), ("rs56038477", "A", "DPYD HapB3 tag"),
   ("rs75017182", "G", "DPYD HapB3")]

/-- DPYD rule block. -/
def rule_dpyd (g : Genotypes) (vl : VLookup) : List Card :=
  let variants := dpyd_marker_table.filterMap (fun m =>
    match g_get g m.1 with
    | none => none
    | some gt =>
      if risk_allele_present m.1 (some gt) m.2.1 vl then
        some (format_pgx_hit m.2.2 m.1 (some gt) m.2.1 vl)
      else none)
  let missing := dpyd_marker_table.filterMap (fun m =>
    if (g_get g m.1).isNone then some m.1 else none)
  if !variants.isEmpty then
    let coverage_note :=
      if !missing.isEmpty then " Partial DPYD panel; missing " ++ join_sep ", " missing ++ "."
      else ""
    [risk_card "Fluoropyrimidine Toxicity" "high"
      ("DPYD variant(s) detected: " ++ join_sep ", " variants ++ "." ++ coverage_note)
      "Confirm with clinical-grade DPYD testing before 5-FU/capecitabine; dosing changes may be needed."
      "CPIC" "clinical"]
  else []

/-- TPMT/NUDT15 rule block. -/
def rule_thiopurine (g : Genotypes) (vl : VLookup) : List Card :=
  let tpmt_2 := g_get g "rs1800462"
  let tpmt_3b := g_get g "rs1800460"
  let tpmt_3c := g_get g "rs1142345"
  let nudt15 := g_get g "rs116855232"
  let c_2 := risk_allele_count "rs1800462" tpmt_2 "C" vl
  let c_3b := risk_allele_count "rs1800460" tpmt_3b "A" vl
  let c_3c := risk_allele_count "rs1142345" tpmt_3c "G" vl
  let c_n := risk_allele_count "rs116855232" nudt15 "T" vl
  let thiopurine_count := c_2 + c_3b + c_3c + c_n
  let hits :=
    (if c_2 != 0 then [format_pgx_hit "TPMT*2" "rs1800462" tpmt_2 "C" vl] else []) ++
    (if c_3b != 0 then [format_pgx_hit "TPMT*3B" "rs1800460" tpmt_3b "A" vl] else []) ++
    (if c_3c != 0 then [format_pgx_hit "TPMT*3C" "rs1142345" tpmt_3c "G" vl] else []) ++
    (if c_n != 0 then [format_pgx_hit "NUDT15" "rs116855232" nudt15 "T" vl] else [])
  let tpmt_missing :=
    (if tpmt_2.isNone then ["rs1800462"] else []) ++
    (if tpmt_3b.isNone then ["rs1800460"] else []) ++
    (if tpmt_3c.isNone then ["rs1142345"] else []) ++
    (if nudt15.isNone then ["rs116855232"] else [])
  if thiopurine_count != 0 && !hits.isEmpty then
    let has_partial_tpmt := tpmt_missing.any (fun r =>
      r == "rs1800462" || r == "rs1800460" || r == "rs1142345")
    let coverage_note :=
      if !tpmt_missing.isEmpty then
        if has_partial_tpmt then
          " Partial TPMT panel; phenotype may be incomplete (missing " ++
            join_sep ", " tpmt_missing ++ ")."
        else
          " Partial TPMT/NUDT15 panel; phenotype may be incomplete (missing " ++
            join_sep ", " tpmt_missing ++ ")."
      else ""
    let level := if thiopurine_count == 1 then "med" else "high"
    [risk_card "Thiopurine Toxicity" level
      ("TPMT/NUDT15 variant(s) detected: " ++ join_sep ", " hits ++ "." ++ coverage_note)
      "Thiopurine dosing should follow CPIC-guided genotype adjustments." "CPIC" "clinical"]
  else []

/-- Sickle-cell (rs334) rule block (direct genotype test). -/
def rule_hbs (g : Genotypes) : List Card :=
  let hbb := g_get g "rs334"
  if str_truthy hbb && has_allele hbb "T" then
    if hbb == some "TT" then
      [risk_card "Sickle Cell (HbS)" "high"
        "HbS/HbS genotype detected (rs334 TT); high risk for sickle cell disease."
        "Confirm with clinical hemoglobin testing; disease-level genotype requires clinical care."
        "ClinVar" "clinical"]
    else
      [risk_card "Sickle Cell (HbS)" "med"
        ("HbS variant detected (rs334 " ++ py_str hbb ++ "); likely sickle cell trait (carrier).")
        "Confirm with clinical hemoglobin testing; carrier screening context."
        "ClinVar" "clinical"]
  else []

/-- SERPINA1 rule block. -/
def rule_serpina1 (g : Genotypes) (vl : VLookup) : List Card :=
  let serpina1_z := g_get g "rs28929474"
  let serpina1_s := g_get g "rs17580"
  let z_hit := risk_allele_present "rs28929474" serpina1_z "A" vl
  let s_hit := risk_allele_present "rs17580" serpina1_s "T" vl
  if z_hit || s_hit then
    let details :=
      (if z_hit then [format_pgx_hit "Pi*Z" "rs28929474" serpina1_z "A" vl] else []) ++
      (if s_hit then [format_pgx_hit "Pi*S" "rs17580" serpina1_s "T" vl] else [])
    let description :=
      if z_hit then
        "SERPINA1 variant(s) detected (" ++ join_sep ", " details ++
          "). Potential AAT deficiency signal; clinical severity depends on serum AAT level and full typing."
      else
        "SERPINA1 variant(s) detected (" ++ join_sep ", " details ++
          "). Pi*S/S screening result may indicate mild AAT reduction; serum AAT level determines significance."
    [risk_card "Alpha-1 Antitrypsin Deficiency" "med" description
      "Confirm with serum AAT testing; consider full SERPINA1 typing if needed. Avoid smoking."
      "ClinVar" "clinical"]
  else []

/-- G6PD rule block (sex-dependent level and wording). -/
def rule_g6pd (g : Genotypes) (sex : Option String) : List Card :=
  let g6pd_202 := g_get g "rs1050828"
  let g6pd_376 := g_get g "rs1050829"
  if str_truthy g6pd_202 && has_allele g6pd_202 "A" then
    let desc_level :=
      if sex == some "male" then
        ("G6PD deficiency risk allele detected (X-linked); males are higher risk.", "high")
      else if sex == some "female" then
        ("G6PD deficiency risk allele detected; females can be carriers or affected.", "med")
      else
        ("G6PD deficiency risk allele detected (X-linked); risk depends on sex.", "med")
    let desc :=
      if str_truthy g6pd_376 && has_allele g6pd_376 "G" then
        desc_level.1 ++ " A- haplotype context is possible (rs1050828 + rs1050829)."
      else desc_level.1
    [risk_card "G6PD Deficiency" desc_level.2 desc
      "Confirm with clinical G6PD enzyme testing before oxidant drugs." "ClinVar" "clinical"]
  else []

/-- APOB rule block. -/
def rule_apob (g : Genotypes) : List Card :=
  if has_allele (g_get g "rs5742904") "A" then
    [risk_card "Familial Hypercholesterolemia (APOB)" "high"
      "APOB R3500Q variant detected; associated with familial hypercholesterolemia."
      "Confirm with clinical lipid testing and genetic counseling." "ClinVar" "clinical"]
  else []

/-- APC I1307K rule block. -/
def rule_apc (g : Genotypes) : List Card :=
  if has_allele (g_get g "rs1801155") "A" then
    [risk_card "Colorectal Cancer Risk (APC I1307K)" "med"
      "APC I1307K allele detected; population-dependent colorectal cancer risk."
      "Discuss screening with a clinician; confirm clinically." "ClinVar" "clinical"]
  else []

/-- CHEK2 I157T rule block. -/
def rule_chek2 (g : Genotypes) : List Card :=
  if has_allele (g_get g "rs17879961") "C" then
    [risk_card "Cancer Risk (CHEK2 I157T)" "med"
      "CHEK2 I157T allele detected; low-to-moderate penetrance risk modifier."
      "Confirm clinically; consider family history in screening decisions." "ClinVar" "clinical"]
  else []

/-- ARMS2 rule block. -/
def rule_arms2 (g : Genotypes) : List Card :=
  if has_allele (g_get g "rs10490924") "T" then
    [risk_card "Vision (ARMS2)" "med"
      "ARMS2 A69S risk allele detected; associated with AMD susceptibility."
      "Protect vision (UV protection, avoid smoking); consider eye exams." "GWAS" "association"]
  else []

/-- CHRNA5 rule block (exact genotype "AA"). -/
def rule_chrna5 (g : Genotypes) : List Card :=
  let chrna5 := g_get g "rs16969968"
  if chrna5 == some "AA" then
    [risk_card "Addiction Risk" "high"
      ("CHRNA5 rs16969968 (" ++ py_str chrna5 ++
        "): increased susceptibility to nicotine dependence if exposed.")
      "Avoid nicotine initiation; add support if quitting." "GWAS" "association"]
  else []

/-- MTHFR compound-heterozygote rule block. -/
def rule_mthfr (g : Genotypes) : List Card :=
  if g_get g "rs1801133" == some "AG" && g_get g "rs1801131" == some "GT" then
    [risk_card "Methylation" "med"
      "MTHFR compound heterozygote: rs1801133 AG + rs1801131 GT."
      "Consider homocysteine testing if clinically indicated." "Low/Contested" "association"]
  else []

/-- LPA rule block. -/
def rule_lpa (g : Genotypes) : List Card :=
  let lpa := g_get g "rs10455872"
  if has_allele lpa "G" then
    [risk_card "Heart Health" "med"
      ("LPA rs10455872 (" ++ py_str lpa ++ "): risk allele detected.")
      "Consider one-time Lp(a) blood test." "GWAS" "association"]
  else []

/-- CFH rule block. -/
def rule_cfh (g : Genotypes) : List Card :=
  let cfh := g_get g "rs1061170"
  if has_allele cfh "C" then
    [risk_card "Vision" "med"
      ("CFH rs1061170 (" ++ py_str cfh ++ "): AMD risk allele present.")
      "UV protection, leafy greens, avoid smoking." "GWAS" "association"]
  else []

/-- 9p21 rule block (exact genotype "GG", protective). -/
def rule_9p21 (g : Genotypes) : List Card :=
  let ninep21 := g_get g "rs1333049"
  if ninep21 == some "GG" then
    [risk_card "Early Heart Attack" "low"
      ("9p21 CAD locus rs1333049 (" ++ py_str ninep21 ++ "): protective genotype.")
      "Good baseline; maintain heart-healthy habits." "GWAS" "association"]
  else []

/-- The full list of cards `_build_risk_cards` accumulates, in rule-evaluation
order, before the final sort. -/
def cards_pre (g : Genotypes) (vl : VLookup) (sex : Option String) : List Card :=
  rule_cyp2c9 g vl ++ rule_factor_v g vl ++ rule_prothrombin g vl ++ rule_cyp2c19 g vl ++
  rule_slco1b1 g ++ rule_vkorc1 g ++ rule_cyp3a5 g vl ++ rule_cyp2b6 g vl ++
  rule_ugt1a1 g vl ++ rule_hla_b57 g ++ rule_nat2 g ++ rule_abcg2 g ++ rule_cyp4f2 g ++
  rule_rs12777823 g ++ rule_dpyd g vl ++ rule_thiopurine g vl ++ rule_hbs g ++
  rule_serpina1 g vl ++ rule_g6pd g sex ++ rule_apob g ++ rule_apc g ++ rule_chek2 g ++
  rule_arms2 g ++ rule_chrna5 g ++ rule_mthfr g ++ rule_lpa g ++ rule_cfh g ++
  rule_9p21 g

/-- `level_order.get(card["level"], 9)` from the final sort of `_build_risk_cards`. -/
def level_rank (c : Card) : Nat :=
  if c.level == "high" then 0
  else if c.level == "med" then 1
  else if c.level == "low" then 2
  else if c.level == "neutral" then 3
  else 9

/-- The comparison underlying Python's `sorted(cards, key=level_order.get(...))`. -/
def card_le (a b : Card) : Bool := decide (level_rank a ≤ level_rank b)

/-- `_build_risk_cards(genotypes, variant_lookup, sex=...)`: the rule cards,
stably sorted by severity rank (Python's `sorted` is a stable sort; `mergeSort`
is the standard stable model of it). -/
def build_risk_cards (g : Genotypes) (vl : VLookup) (sex : Option String) : List Card :=
  (cards_pre g vl sex).mergeSort card_le

/-- A wellness/functional display row (the dictionary fields the validators
read; `.get` on a missing key is `none`). -/
structure Row where
  label : Option String
  status : Option String
  sub : Option String
  value : Option String
  detail : Option String
  emoji : Option String
  row_type : Option String
  evidence : Option String
  tags : Option String
deriving DecidableEq

/-- One group assembled by `_functional_groups`: a summary row and its child rows. -/
structure RowGroup where
  summary : Row
  children : List Row
deriving DecidableEq

/-- The fold step of the `_functional_groups` loop. -/
def functional_groups_step (acc : List RowGroup × Option RowGroup) (row : Row) :
    List RowGroup × Option RowGroup :=
  let label := py_or row.label ""
  let is_summary := py_or row.row_type "" == "summary" || str_ends_with label " summary"
  if is_summary then
    (match acc.2 with
     | none => acc.1
     | some c => acc.1 ++ [c], some ⟨row, []⟩)
  else
    match acc.2 with
    | none => acc
    | some c => (acc.1, some ⟨c.summary, c.children ++ [row]⟩)

/-- `_functional_groups(functional_rows)`. -/
def functional_groups (rows : List Row) : List RowGroup :=
  let acc := rows.foldl functional_groups_step ([], none)
  match acc.2 with
  | none => acc.1
  | some c => acc.1 ++ [c]

/-- The summary-value test of `_validate_summary_consistency`: the loop skips a
group unless the lower-cased summary value contains one of the two no-risk phrases. -/
def summary_no_risk (summary : Row) : Bool :=
  let v := lower_str (py_or summary.value "")
  py_in "no high-confidence adverse flags detected in this screened set" v ||
    py_in "no risk markers detected" v

/-- The child-flag test of `_validate_summary_consistency`. -/
def child_flagged (child : Row) : Bool :=
  let status := lower_str (py_or child.status "")
  let value := lower_str (py_or child.value "")
  status == "risk" || status == "missing" ||
    py_in "risk allele present" value ||
    py_in "incomplete" value ||
    py_in "not assessed" value

/-- `_validate_summary_consistency(functional_rows)`: `some message` models the
raised `ValueError`, `none` models a clean pass. -/
def validate_summary_consistency (rows : List Row) : Option String :=
  (functional_groups rows).findSome? (fun grp =>
    if !summary_no_risk grp.summary then none
    else grp.children.findSome? (fun child =>
      if child_flagged child then
        some ("Validation failed: summary-child mismatch in functional section. Summary '" ++
          py_or grp.summary.label "" ++ "' says no risk, but child '" ++
          py_or child.label "" ++ "' is flagged.")
      else none))

/-- The combined lower-cased text `f"{label} {description} {action}".lower()` of
a risk card, as checked by `_validate_warfarin_disclaimer`. -/
def card_combined_lower (c : Card) : String :=
  lower_str (c.label ++ " " ++ c.description ++ " " ++ c.action)

/-- The per-card check of `_validate_warfarin_disclaimer`. -/
def warfarin_card_error (c : Card) : Option String :=
  let combined := card_combined_lower c
  if !py_in "warfarin" combined then none
  else if !py_in "warfarin panel status:" combined || !py_in "vkorc1" combined then
    some "Validation failed: warfarin-related item missing explicit VKORC1 panel status."
  else if !py_in "present" combined && !py_in "missing" combined then
    some "Validation failed: warfarin-related item missing explicit present/missing wording."
  else none

/-- `_validate_warfarin_disclaimer(risk_cards)`. -/
def validate_warfarin_disclaimer (cards : List Card) : Option String :=
  cards.findSome? warfarin_card_error

/-- One high-priority finding (the dictionary produced by `_high_priority_findings`). -/
structure Finding where
  category : String
  label : String
  sub : String
  note : String
deriving DecidableEq

/-- The per-card offender test of `_validate_hbs_interpretation_guardrail`. -/
def hbs_card_offends (card : Card) : Bool :=
  let combined := lower_str (card.label ++ " " ++ card.description)
  py_in "hbc" combined || card.label == "Sickle Cell (HbS)"

/-- The per-finding offender test of `_validate_hbs_interpretation_guardrail`. -/
def hbs_finding_offends (item : Finding) : Bool :=
  let combined := lower_str (item.label ++ " " ++ item.sub)
  py_in "hbc" combined || item.label == "Hemoglobin variant (HbS)" ||
    item.label == "Sickle Cell (HbS)" || item.label == "Sickle cell (HbS)"

/-- `_validate_hbs_interpretation_guardrail(genotypes, risk_cards, high_priority)`. -/
def validate_hbs_interpretation_guardrail (g : Genotypes) (cards : List Card)
    (high_priority : List Finding) : Option String :=
  if str_truthy (g_get g "rs334") then none
  else
    let offenders :=
      cards.filterMap (fun card =>
        if hbs_card_offends card then
          some ("risk_card:" ++ (if card.label == "" then card.description else card.label))
        else none) ++
      high_priority.filterMap (fun item =>
        if hbs_finding_offends item then
          some ("high_priority:" ++ (if item.label == "" then item.sub else item.label))
        else none)
    if !offenders.isEmpty then
      some ("Validation failed: rs334 is missing, but HbS/HbC interpretations were generated (" ++
        join_sep ", " offenders ++ ").")
    else none

/-- The flag record `_variant_flags` returns. -/
structure VariantFlags where
  is_missing : Bool
  is_non_snp_placeholder : Bool
  is_strand_caution : Bool
  is_proxy : Bool
  is_partial_panel : Bool
  proxy_note : String
deriving DecidableEq

/-- `_variant_flags(rsid, genotype, non_snp_call, variant_lookup, is_partial_panel=...)`. -/
def variant_flags (rsid : String) (genotype : Option String)
    (non_snp_call : Option String) (vl : VLookup) (is_partial_panel : Bool) :
    VariantFlags :=
  let entry := if vl_truthy vl then vl_get vl rsid else none
  let match_status := match entry with
    | none => ""
    | some e => e.match_status.getD ""
  let proxy_note := match entry with
    | none => ""
    | some e =>
      match e.proxy_note with
      | none => ""
      | some s => s.trim
  let has_call := str_truthy genotype || str_truthy non_snp_call
  { is_missing := !has_call
  , is_non_snp_placeholder := str_truthy non_snp_call
  , is_strand_caution := str_truthy genotype &&
      (match_status == "reverse_complement" || match_status == "mismatch")
  , is_proxy := !(proxy_note == "") && has_call
  , is_partial_panel := is_partial_panel
  , proxy_note := proxy_note }

/-- `_panel_display_name(panel_name)`. -/
def panel_display_name (panel_name : String) : String :=
  if panel_name == "Functional Health - Methylation" then
    "B-vitamin / Homocysteine pathway"
  else (panel_name.replace "Functional Health - " "").trim

/-- `_wellness_emoji(label)`. -/
def wellness_emoji (label : String) : String :=
  let key := lower_str label
  if py_in "lactose" key then "🥛"
  else if py_in "caffeine" key then "☕"
  else if py_in "alcohol" key then "🍺"
  else if py_in "nicotine" key then "🚭"
  else if py_in "bitter" key then "🥬"
  else if py_in "celiac" key || py_in "gluten" key then "🌾"
  else if py_in "muscle" key || py_in "fiber" key then "💪"
  else if py_in "vitamin d" key then "☀️"
  else if py_in "vitamin b12" key then "💊"
  else if py_in "stress" key || py_in "comt" key then "🧠"
  else if py_in "alzheimer" key || py_in "apoe" key then "🧬"
  else if py_in "histamine" key then "🧫"
  else if py_in "detox" key || py_in "acetylation" key then "🧪"
  else if py_in "autoimmune" key || py_in "thyroid" key then "🛡️"
  else if py_in "estrogen" key || py_in "hormone" key then "🌸"
  else if py_in "inflammation" key then "🔥"
  else if py_in "vdr" key || py_in "bone" key then "🦴"
  else if py_in "methylation" key then "⚙️"
  else if py_in "longevity" key then "⌛"
  else if py_in "neuroplasticity" key then "🧠"
  else if py_in "oxidative" key then "☢️"
  else if py_in "metabolic" key then "📊"
  else if py_in "iron" key then "🧲"
  else "✨"

/-- `_functional_evidence(panel_name)`. -/
def functional_evidence (panel_name : String) : String :=
  if panel_name == "Functional Health - Detox/Acetylation" then "Clinical PGx"
  else if panel_name == "Functional Health - Autoimmune" then "Association/Tag"
  else if panel_name == "Functional Health - Histamine" then "Association"
  else if panel_name == "Functional Health - Hormone" then "Association/Context"
  else if panel_name == "Functional Health - Inflammation" then "Association"
  else if panel_name == "Functional Health - VDR/Bone" then "Association"
  else if panel_name == "Functional Health - Methylation" then "Biochemical Pathway"
  else if panel_name == "Functional Health - Longevity" then "Statistical Association"
  else if panel_name == "Functional Health - Neuroplasticity" then "Biological Mechanism"
  else if panel_name == "Functional Health - Oxidative Stress" then "Biochemical Pathway"
  else if panel_name == "Functional Health - Metabolic" then "GWAS Association"
  else if panel_name == "Functional Health - Iron Metabolism" then "Clinical Risk"
  else "Association"

/-- `_functional_tags(panel_name)`. -/
def functional_tags (panel_name : String) : String :=
  if panel_name == "Functional Health - Detox/Acetylation" then
    "Isoniazid, hydralazine, sulfasalazine"
  else if panel_name == "Functional Health - Autoimmune" then
    "Thyroid autoimmunity; ankylosing spondylitis"
  else if panel_name == "Functional Health - Histamine" then
    "DAO/HNMT; histamine intolerance"
  else if panel_name == "Functional Health - Hormone" then
    "OC/HRT sensitivity; estrogen metabolism"
  else if panel_name == "Functional Health - Inflammation" then
    "Systemic inflammation; cytokines"
  else if panel_name == "Functional Health - VDR/Bone" then
    "Vitamin D receptor; bone health"
  else if panel_name == "Functional Health - Methylation" then
    "B-Vitamins, Homocysteine, Folate"
  else if panel_name == "Functional Health - Longevity" then
    "Aging pathways, FOXO3"
  else if panel_name == "Functional Health - Neuroplasticity" then
    "BDNF, Brain health"
  else if panel_name == "Functional Health - Oxidative Stress" then
    "Antioxidant enzymes, SOD2"
  else if panel_name == "Functional Health - Metabolic" then
    "BMI tendency, Appetite, FTO"
  else if panel_name == "Functional Health - Iron Metabolism" then
    "Hemochromatosis, Iron storage, HFE"
  else ""

/-- One entry of a panel's marker table as read by `_panel_summary_row`
(`entry.get("rsid", "")` and `entry.get("effect_allele") or ""`). -/
structure PanelEntry where
  rsid : String
  effect_allele : Option String
deriving DecidableEq

/-- The four classification buckets the `_panel_summary_row` loop accumulates. -/
structure SummaryBuckets where
  risk_rsids : List String
  proxy_rsids : List String
  missing_rsids : List String
  non_snp_calls : List (String × String)
deriving DecidableEq

/-- One iteration of the `_panel_summary_row` classification loop
(`non_snp_calls` is a dict, so an already-present key is not re-appended). -/
def summary_bucket_step (g : Genotypes) (non_snp : Genotypes) (vl : VLookup)
    (acc : SummaryBuckets) (entry : PanelEntry) : SummaryBuckets :=
  let rsid := entry.rsid
  let effect_allele := py_or entry.effect_allele ""
  let genotype := g_get g rsid
  let non_snp_call := g_get non_snp rsid
  let flags := variant_flags rsid genotype non_snp_call vl false
  if !str_truthy genotype then
    if str_truthy non_snp_call then
      if acc.non_snp_calls.any (fun p => p.1 == rsid) then acc
      else { acc with non_snp_calls := acc.non_snp_calls ++ [(rsid, py_str non_snp_call)] }
    else { acc with missing_rsids := acc.missing_rsids ++ [rsid] }
  else if flags.is_proxy then
    { acc with proxy_rsids := acc.proxy_rsids ++ [rsid] }
  else if !(effect_allele == "") && risk_allele_present rsid genotype effect_allele vl then
    { acc with risk_rsids := acc.risk_rsids ++ [rsid] }
  else acc

/-- The buckets `_panel_summary_row` ends up with. -/
def summary_buckets (entries : List PanelEntry) (g : Genotypes) (non_snp : Genotypes)
    (vl : VLookup) : SummaryBuckets :=
  entries.foldl (summary_bucket_step g non_snp vl) ⟨[], [], [], []⟩

/-- `non_snp_genotypes = non_snp_genotypes or {}` from `_panel_summary_row`. -/
def non_snp_or_empty : Option Genotypes → Genotypes
  | none => []
  | some m => m

/-- The detail fragments of `_panel_summary_row`, in source order. -/
def summary_detail_parts (panel_name : String) (b : SummaryBuckets) : List String :=
  (if !b.risk_rsids.isEmpty then
    ["Risk markers: " ++ join_sep ", " b.risk_rsids] else []) ++
  (if !b.proxy_rsids.isEmpty then
    ["Proxy markers: " ++ join_sep ", " b.proxy_rsids] else []) ++
  (if !b.missing_rsids.isEmpty then
    ["Missing markers: " ++ join_sep ", " b.missing_rsids] else []) ++
  (if !b.non_snp_calls.isEmpty then
    ["Non-SNP calls: " ++
      join_sep ", " (b.non_snp_calls.map (fun p => p.1 ++ "=" ++ p.2))] else []) ++
  (if panel_name == "Functional Health - Methylation" then
    ["MTHFR markers are reported separately in Lifestyle & Genetic Associations."] else [])

/-- `_panel_summary_row(panel_name, entries, genotypes, non_snp_genotypes, variant_lookup)`. -/
def panel_summary_row (panel_name : String) (entries : List PanelEntry)
    (g : Genotypes) (non_snp : Option Genotypes) (vl : VLookup) : Option Row :=
  if entries.isEmpty then none
  else
    let b := summary_buckets entries g (non_snp_or_empty non_snp) vl
    let status_value :=
      if !b.risk_rsids.isEmpty then ("risk", "Risk marker present")
      else if !b.missing_rsids.isEmpty || !b.non_snp_calls.isEmpty then
        ("missing", "Incomplete screen")
      else if !b.proxy_rsids.isEmpty then ("proxy", "Proxy marker(s) present")
      else ("protective", "No high-confidence adverse flags detected in this screened set")
    let detail_parts := summary_detail_parts panel_name b
    let detail := if !detail_parts.isEmpty then some (join_sep "; " detail_parts) else none
    some
      { label := some (panel_display_name panel_name ++ " summary")
      , status := some status_value.1
      , sub := some ""
      , value := some status_value.2
      , detail := detail
      , emoji := some (wellness_emoji panel_name)
      , row_type := some "summary"
      , evidence := some (functional_evidence panel_name)
      , tags := some (functional_tags panel_name) }

/-- A character list that cannot take part in an occurrence of "war" when text
is appended after it: it has no "war" infix, and does not end in "w" or "wa".
This is the invariant used to show card texts never mention "warfarin". -/
def war_free (l : List Char) : Prop :=
  ¬ (['w', 'a', 'r'] <:+: l) ∧ ¬ (['w'] <:+ l) ∧ ¬ (['w', 'a'] <:+ l)

instance war_free_decidable (l : List Char) : Decidable (war_free l) := by
  unfold war_free
  infer_instance

/-- A genotype string over the nucleotide alphabet. -/
def acgt_only (s : String) : Prop :=
  ∀ c ∈ s.data, c = 'A' ∨ c = 'C' ∨ c = 'G' ∨ c = 'T'

instance acgt_only_decidable (s : String) : Decidable (acgt_only s) := by
  unfold acgt_only
  infer_instance

/-- A well-formed genotype store: every stored genotype is a string over
{A,C,G,T} (the data-model invariant for genotypes). -/
def genotypes_wf (g : Genotypes) : Prop := ∀ p ∈ g, acgt_only p.2

instance genotypes_wf_decidable (g : Genotypes) : Decidable (genotypes_wf g) := by
  unfold genotypes_wf
  infer_instance

lemma allele_count_le_two (genotype : Option String) (allele : String)
    (h : ∀ g, genotype = some g → g.data.length = 2) :
    allele_count genotype allele ≤ 2 := by
  cases genotype with
  | none => simp [allele_count]
  | some g =>
    have hlen := h g rfl
    simp only [allele_count]
    split
    · exact Nat.zero_le 2
    · exact hlen ▸ List.countP_le_length _

lemma vl_get_some_truthy {vl : VLookup} {rsid : String} {e : VEntry}
    (h : vl_get vl rsid = some e) : vl_truthy vl = true := by
  cases vl with
  | none => simp [vl_get] at h
  | some l =>
    cases l with
    | nil => simp [vl_get, List.find?] at h
    | cons a l' => simp [vl_truthy, List.isEmpty]

lemma variant_match_ok_false_of_mismatch {vl : VLookup} {rsid : String} {e : VEntry}
    (hget : vl_get vl rsid = some e)
    (hms : e.match_status = some "mismatch" ∨ e.match_status = some "non_snp_mismatch") :
    variant_match_ok rsid vl = false := by
  simp only [variant_match_ok, vl_get_some_truthy hget, Bool.not_true, Bool.false_eq_true,
    if_false, hget]
  rcases hms with h | h <;> simp [h]

end DnaReport

open DnaReport

/-- C1: for every rsid, every genotype (a length-2 string over {A,C,G,T}, or absent),
every single-character risk allele and every verification feed, `_risk_allele_count`
returns an integer in {0,1,2}; and it returns 0 whenever the feed's entry for that
rsid has match_status "mismatch" or "non_snp_mismatch", regardless of genotype. -/
theorem C1_risk_allele_count_range_and_mismatch
    (rsid : String) (genotype : Option String) (risk_allele : String) (vl : VLookup)
    (hgt : ∀ g, genotype = some g →
      g.data.length = 2 ∧ ∀ c ∈ g.data, c ∈ ['A', 'C', 'G', 'T'])
    (hra : risk_allele.data.length = 1) :
    risk_allele_count rsid genotype risk_allele vl ≤ 2 ∧
    (∀ e, vl_get vl rsid = some e →
      (e.match_status = some "mismatch" ∨ e.match_status = some "non_snp_mismatch") →
      ∀ gt : Option String, risk_allele_count rsid gt risk_allele vl = 0) := by
  constructor
  · have hlen : ∀ g, genotype = some g → g.data.length = 2 := fun g hg => (hgt g hg).1
    simp only [risk_allele_count]
    split
    · exact Nat.zero_le 2
    · split
      · exact Nat.zero_le 2
      · split
        · exact allele_count_le_two genotype risk_allele hlen
        · split
          · exact Nat.zero_le 2
          · split
            · exact Nat.zero_le 2
            · split
              · exact Nat.zero_le 2
              · split
                · exact allele_count_le_two genotype _ hlen
                · split
                  · exact allele_count_le_two genotype _ hlen
                  · exact Nat.zero_le 2
  · intro e hget hms gt
    have hok := variant_match_ok_false_of_mismatch hget hms
    simp only [risk_allele_count, hok, Bool.not_false, if_true]
    split <;> rfl

/-- Witness for C1 at a concrete input: genotype "CT", risk allele "T", a feed
declaring a mismatch for the rsid. -/
theorem C1_witness :
    ((∀ g, (some "CT" : Option String) = some g →
        g.data.length = 2 ∧ ∀ c ∈ g.data, c ∈ ['A', 'C', 'G', 'T']) ∧
      ("T" : String).data.length = 1) ∧
    (risk_allele_count "rs1" (some "CT") "T"
        (some [("rs1", ⟨some "mismatch", none, none⟩)]) ≤ 2 ∧
      risk_allele_count "rs1" (some "CT") "T"
        (some [("rs1", ⟨some "mismatch", none, none⟩)]) = 0) := by
  refine ⟨⟨by intro g hg; cases hg; exact ⟨rfl, by decide⟩, rfl⟩, ?_, ?_⟩
  · exact (C1_risk_allele_count_range_and_mismatch "rs1" (some "CT") "T"
      (some [("rs1", ⟨some "mismatch", none, none⟩)])
      (by intro g hg; cases hg; exact ⟨rfl, by decide⟩) rfl).1
  · exact (C1_risk_allele_count_range_and_mismatch "rs1" (some "CT") "T"
      (some [("rs1", ⟨some "mismatch", none, none⟩)])
      (by intro g hg; cases hg; exact ⟨rfl, by decide⟩) rfl).2
      ⟨some "mismatch", none, none⟩ rfl (Or.inl rfl) (some "CT")

/-- C3: for any marker whose verification entry has match_status
"reverse_complement", with declared risk allele "A" and genotype "TT",
`_risk_allele_count` returns 2 and the zygosity label is
"homozygous risk allele". -/
theorem C3_reverse_complement_counts_complement
    (rsid : String) (vl : VLookup) (e : VEntry)
    (hget : vl_get vl rsid = some e)
    (hms : e.match_status = some "reverse_complement") :
    risk_allele_count rsid (some "TT") "A" vl = 2 ∧
    risk_zygosity_label rsid (some "TT") "A" vl = "homozygous risk allele" := by
  have htruthy := vl_get_some_truthy hget
  have hok : variant_match_ok rsid vl = true := by
    simp only [variant_match_ok, htruthy, Bool.not_true, Bool.false_eq_true, if_false, hget]
    simp [hms]
  have hcount : risk_allele_count rsid (some "TT") "A" vl = 2 := by
    simp only [risk_allele_count, hok, htruthy, hget, hms]
    norm_num [str_truthy, has_allele, py_in, complement_of, allele_count]
    decide
  refine ⟨hcount, ?_⟩
  simp [risk_zygosity_label, hcount]

/-- Witness for C3 at a concrete feed containing a reverse-complement entry. -/
theorem C3_witness :
    vl_get (some [("rs9", ⟨some "reverse_complement", some "A/G", none⟩)]) "rs9" =
      some ⟨some "reverse_complement", some "A/G", none⟩ ∧
    risk_allele_count "rs9" (some "TT") "A"
      (some [("rs9", ⟨some "reverse_complement", some "A/G", none⟩)]) = 2 ∧
    risk_zygosity_label "rs9" (some "TT") "A"
      (some [("rs9", ⟨some "reverse_complement", some "A/G", none⟩)]) =
      "homozygous risk allele" := by
  refine ⟨rfl, ?_⟩
  exact C3_reverse_complement_counts_complement "rs9"
    (some [("rs9", ⟨some "reverse_complement", some "A/G", none⟩)])
    ⟨some "reverse_complement", some "A/G", none⟩ rfl rfl

lemma esc_step_some_label {existing : List String} {g : Genotypes} {vl : VLookup}
    {rule : EscRule} {c : Card} (h : esc_step existing g vl rule = some c) :
    c.label = rule.label ∧ rule.label ∉ existing := by
  unfold esc_step at h
  split at h
  · exact absurd h (by simp)
  · split at h
    · exact absurd h (by simp)
    · refine ⟨?_, by assumption⟩
      cases h
      rfl

lemma esc_step_none_of_mem {existing : List String} {g : Genotypes} {vl : VLookup}
    {rule : EscRule} (h : rule.label ∈ existing) :
    esc_step existing g vl rule = none := by
  unfold esc_step
  simp [h]

lemma esc_step_none_of_no_hits {existing : List String} {g : Genotypes} {vl : VLookup}
    {rule : EscRule} (h : (esc_hits g vl rule).isEmpty = true) :
    esc_step existing g vl rule = none := by
  unfold esc_step
  split
  · rfl
  · simp [h]

/-- C4: the Escalation Pass is idempotent (running it on its own output returns
that output unchanged), and it never appends a card whose label already occurs
in the list it was given. -/
theorem C4_escalation_idempotent (cards : List Card) (g : Genotypes) (vl : VLookup) :
    escalate_high_evidence_pgx (escalate_high_evidence_pgx cards g vl) g vl =
      escalate_high_evidence_pgx cards g vl ∧
    ∀ c ∈ escalate_high_evidence_pgx cards g vl,
      c ∈ cards ∨ c.label ∉ cards.map (·.label) := by
  constructor
  · have hnil : high_evidence_pgx_escalation.filterMap
        (esc_step ((escalate_high_evidence_pgx cards g vl).map (·.label)) g vl) = [] := by
      rw [List.filterMap_eq_nil_iff]
      intro rule hrule
      cases hstep : esc_step (cards.map (·.label)) g vl rule with
      | some c =>
        have hc : c ∈ high_evidence_pgx_escalation.filterMap
            (esc_step (cards.map (·.label)) g vl) :=
          List.mem_filterMap.mpr ⟨rule, hrule, hstep⟩
        have hlabel := (esc_step_some_label hstep).1
        apply esc_step_none_of_mem
        rw [escalate_high_evidence_pgx, List.map_append]
        exact List.mem_append_right _ (hlabel ▸ List.mem_map_of_mem (·.label) hc)
      | none =>
        by_cases hmem : rule.label ∈ (escalate_high_evidence_pgx cards g vl).map (·.label)
        · exact esc_step_none_of_mem hmem
        · have hnot : rule.label ∉ cards.map (·.label) := by
            intro hin
            exact hmem (by
              rw [escalate_high_evidence_pgx, List.map_append]
              exact List.mem_append_left _ hin)
          unfold esc_step at hstep
          rw [if_neg hnot] at hstep
          apply esc_step_none_of_no_hits
          by_contra hne
          rw [if_neg hne] at hstep
          exact absurd hstep (by simp)
    conv_lhs => rw [escalate_high_evidence_pgx, hnil]
    exact List.append_nil _
  · intro c hc
    rw [escalate_high_evidence_pgx] at hc
    rcases List.mem_append.mp hc with h | h
    · exact Or.inl h
    · right
      obtain ⟨rule, _, hstep⟩ := List.mem_filterMap.mp h
      obtain ⟨hlabel, hnot⟩ := esc_step_some_label hstep
      exact hlabel ▸ hnot

/-- C10: the Escalation Pass never modifies, reorders or removes its input
cards — the result is the input list followed by appended cards only, and each
appended card is a `clinical` card whose label, level, action and evidence come
verbatim from the fixed escalation rule table. -/
theorem C10_escalation_frame (cards : List Card) (g : Genotypes) (vl : VLookup) :
    ∃ appended,
      escalate_high_evidence_pgx cards g vl = cards ++ appended ∧
      ∀ c ∈ appended, c.category = "clinical" ∧
        ∃ rule ∈ high_evidence_pgx_escalation,
          c.label = rule.label ∧ c.level = rule.level ∧
          c.action = rule.action ∧ c.evidence = rule.evidence := by
  refine ⟨high_evidence_pgx_escalation.filterMap
    (esc_step (cards.map (·.label)) g vl), by rw [escalate_high_evidence_pgx], ?_⟩
  intro c hc
  obtain ⟨rule, hrule, hstep⟩ := List.mem_filterMap.mp hc
  unfold esc_step at hstep
  split at hstep
  · exact absurd hstep (by simp)
  · split at hstep
    · exact absurd hstep (by simp)
    · cases hstep
      exact ⟨rfl, rule, hrule, rfl, rfl, rfl, rfl⟩

/-- C5: the summary/child consistency validator raises exactly when some
functional-health group has a summary whose value carries a no-risk phrase and
a child row that is flagged (status risk/missing, or value text implying
"risk allele present"/"incomplete"/"not assessed").  The source defines no
allow-list for this check, so no marker is explicitly allow-listed and the
exception clause of the claim is vacuous. -/
theorem C5_summary_consistency_iff (rows : List Row) :
    (validate_summary_consistency rows).isSome = true ↔
      ∃ grp ∈ functional_groups rows, summary_no_risk grp.summary = true ∧
        ∃ child ∈ grp.children, child_flagged child = true := by
  unfold validate_summary_consistency
  rw [List.findSome?_isSome_iff]
  constructor
  · rintro ⟨grp, hmem, hsome⟩
    refine ⟨grp, hmem, ?_⟩
    cases hnr : summary_no_risk grp.summary with
    | false => rw [hnr] at hsome; simp at hsome
    | true =>
      refine ⟨rfl, ?_⟩
      rw [hnr] at hsome
      simp only [Bool.not_true, Bool.false_eq_true, if_false] at hsome
      rw [List.findSome?_isSome_iff] at hsome
      obtain ⟨child, hcm, hcs⟩ := hsome
      cases hcf : child_flagged child with
      | false => rw [hcf] at hcs; simp at hcs
      | true => exact ⟨child, hcm, hcf⟩
  · rintro ⟨grp, hmem, hnr, child, hcm, hcf⟩
    refine ⟨grp, hmem, ?_⟩
    rw [hnr]
    simp only [Bool.not_true, Bool.false_eq_true, if_false]
    rw [List.findSome?_isSome_iff]
    exact ⟨child, hcm, by rw [hcf]; simp⟩

/-- C7: whenever rs334 has no (truthy) genotype, the HbS guardrail raises
exactly when some risk card or high-priority finding matches the sickle/HbS/HbC
offender tests (any card whose lower-cased text contains "hbc", or labelled
"Sickle Cell (HbS)", and the analogous finding labels); when rs334 has a
genotype the guardrail never raises. -/
theorem C7_hbs_guardrail_iff (g : Genotypes) (cards : List Card) (hp : List Finding) :
    (str_truthy (g_get g "rs334") = true →
      validate_hbs_interpretation_guardrail g cards hp = none) ∧
    (str_truthy (g_get g "rs334") = false →
      ((validate_hbs_interpretation_guardrail g cards hp).isSome = true ↔
        (∃ c ∈ cards, hbs_card_offends c = true) ∨
        (∃ i ∈ hp, hbs_finding_offends i = true))) := by
  constructor
  · intro h
    unfold validate_hbs_interpretation_guardrail
    rw [h]
    rfl
  · intro h
    unfold validate_hbs_interpretation_guardrail
    rw [h]
    simp only [Bool.false_eq_true, if_false]
    have hcards : ∀ c : Card,
        ((if hbs_card_offends c then
          some ("risk_card:" ++ (if c.label == "" then c.description else c.label))
         else none) = none) ↔ hbs_card_offends c = false := by
      intro c
      cases hc : hbs_card_offends c <;> simp [hc]
    have hfind : ∀ i : Finding,
        ((if hbs_finding_offends i then
          some ("high_priority:" ++ (if i.label == "" then i.sub else i.label))
         else none) = none) ↔ hbs_finding_offends i = false := by
      intro i
      cases hi : hbs_finding_offends i <;> simp [hi]
    constructor
    · intro hsome
      by_contra hno
      push_neg at hno
      have hempty : (cards.filterMap (fun card =>
          if hbs_card_offends card then
            some ("risk_card:" ++ (if card.label == "" then card.description else card.label))
          else none) ++
        hp.filterMap (fun item =>
          if hbs_finding_offends item then
            some ("high_priority:" ++ (if item.label == "" then item.sub else item.label))
          else none)) = [] := by
        rw [List.append_eq_nil]
        constructor
        · rw [List.filterMap_eq_nil_iff]
          intro c hc
          rw [hcards c]
          simpa using hno.1 c hc
        · rw [List.filterMap_eq_nil_iff]
          intro i hi
          rw [hfind i]
          simpa using hno.2 i hi
      rw [hempty] at hsome
      simp at hsome
    · intro hex
      have hne : (cards.filterMap (fun card =>
          if hbs_card_offends card then
            some ("risk_card:" ++ (if card.label == "" then card.description else card.label))
          else none) ++
        hp.filterMap (fun item =>
          if hbs_finding_offends item then
            some ("high_priority:" ++ (if item.label == "" then item.sub else item.label))
          else none)) ≠ [] := by
        intro hempty
        rw [List.append_eq_nil] at hempty
        rcases hex with ⟨c, hc, hoff⟩ | ⟨i, hi, hoff⟩
        · have := (List.filterMap_eq_nil_iff.mp hempty.1) c hc
          rw [hcards c] at this
          rw [hoff] at this
          exact absurd this (by simp)
        · have := (List.filterMap_eq_nil_iff.mp hempty.2) i hi
          rw [hfind i] at this
          rw [hoff] at this
          exact absurd this (by simp)
      have : (cards.filterMap (fun card =>
          if hbs_card_offends card then
            some ("risk_card:" ++ (if card.label == "" then card.description else card.label))
          else none) ++
        hp.filterMap (fun item =>
          if hbs_finding_offends item then
            some ("high_priority:" ++ (if item.label == "" then item.sub else item.label))
          else none)).isEmpty = false := by
        rw [List.isEmpty_eq_false_iff_exists_mem]
        rcases List.exists_mem_of_ne_nil _ hne with ⟨x, hx⟩
        exact ⟨x, hx⟩
      rw [this]
      simp

lemma infix_append_left_of (l : List Char) {a m : List Char} (h : a <:+: m) :
    a <:+: l ++ m := by
  obtain ⟨s, t, hst⟩ := h
  exact ⟨l ++ s, t, by rw [← hst]; simp⟩

lemma infix_append_right_of (l : List Char) {a m : List Char} (h : a <:+: m) :
    a <:+: m ++ l := by
  obtain ⟨s, t, hst⟩ := h
  exact ⟨s, t ++ l, by rw [← hst]; simp⟩

lemma infix_join_of_mem (sep : String) {l : List String} {a : String} (h : a ∈ l) :
    a.data <:+: (join_sep sep l).data := by
  induction l with
  | nil => cases h
  | cons x xs ih =>
    cases xs with
    | nil =>
      rcases List.mem_singleton.mp h with rfl
      exact List.infix_refl _
    | cons y ys =>
      rcases List.mem_cons.mp h with rfl | hmem
      · show a.data <:+: (a ++ sep ++ join_sep sep (y :: ys)).data
        simp only [String.data_append]
        exact infix_append_right_of _ (infix_append_right_of _ (List.infix_refl _))
      · show a.data <:+: (x ++ sep ++ join_sep sep (y :: ys)).data
        simp only [String.data_append]
        exact infix_append_left_of _ (ih hmem)

lemma detail_parts_nonempty_detail {panel_name : String} {b : SummaryBuckets}
    {p : String} (hp : p ∈ summary_detail_parts panel_name b) :
    (if !(summary_detail_parts panel_name b).isEmpty then
      some (join_sep "; " (summary_detail_parts panel_name b)) else none) =
      some (join_sep "; " (summary_detail_parts panel_name b)) ∧
    p.data <:+: (join_sep "; " (summary_detail_parts panel_name b)).data := by
  have hne : (summary_detail_parts panel_name b).isEmpty = false := by
    cases hmt : (summary_detail_parts panel_name b).isEmpty
    · rfl
    · rw [List.isEmpty_iff] at hmt
      rw [hmt] at hp
      cases hp
  refine ⟨by rw [hne]; rfl, infix_join_of_mem _ hp⟩

/-- Witness for C7: with rs334 absent and an injected card mentioning "HbC",
the guardrail raises; the hypotheses of the theorem are discharged concretely. -/
theorem C7_witness :
    str_truthy (g_get [] "rs334") = false ∧
    (validate_hbs_interpretation_guardrail []
      [risk_card "Test" "med" "mentions HbC variant" "none" "ClinVar" "clinical"]
      []).isSome = true := by
  refine ⟨by decide, ?_⟩
  exact ((C7_hbs_guardrail_iff []
      [risk_card "Test" "med" "mentions HbC variant" "none" "ClinVar" "clinical"]
      []).2 (by decide)).mpr
    (Or.inl ⟨risk_card "Test" "med" "mentions HbC variant" "none" "ClinVar" "clinical",
      List.mem_singleton.mpr rfl, by decide⟩)

lemma isSuffix_append_cases {α : Type} {l x y : List α} (h : l <:+ x ++ y) :
    l <:+ y ∨ ∃ l₁, l = l₁ ++ y ∧ l₁ <:+ x := by
  obtain ⟨s, hs⟩ := h
  rcases List.append_eq_append_iff.mp hs with ⟨a, ha1, ha2⟩ | ⟨c, hc1, hc2⟩
  · exact Or.inr ⟨a, ha2, ⟨s, ha1.symm⟩⟩
  · exact Or.inl ⟨c, hc2.symm⟩

lemma infix_append_cases {α : Type} {n x y : List α} (h : n <:+: x ++ y) :
    n <:+: x ∨ n <:+: y ∨
      ∃ n₁ n₂, n₁ ++ n₂ = n ∧ n₁ ≠ [] ∧ n₂ ≠ [] ∧ n₁ <:+ x ∧ n₂ <+: y := by
  obtain ⟨s, t, hst⟩ := h
  rcases List.append_eq_append_iff.mp hst with ⟨a, ha1, ha2⟩ | ⟨c, hc1, hc2⟩
  · exact Or.inl ⟨s, a, ha1.symm⟩
  · rcases List.append_eq_append_iff.mp hc1 with ⟨a', hb1, hb2⟩ | ⟨c', hd1, hd2⟩
    · rcases eq_or_ne a' [] with rfl | hne1
      · rw [List.nil_append] at hb2
        exact Or.inr (Or.inl ⟨[], t, by rw [List.nil_append, hb2, hc2]⟩)
      · rcases eq_or_ne c [] with rfl | hne2
        · rw [List.append_nil] at hb2
          exact Or.inl ⟨s, [], by rw [List.append_nil, hb2, hb1]⟩
        · exact Or.inr (Or.inr ⟨a', c, hb2.symm, hne1, hne2, ⟨s, hb1.symm⟩, ⟨t, hc2.symm⟩⟩)
    · exact Or.inr (Or.inl ⟨c', t, by rw [hc2, hd2]⟩)

lemma war_free_append {x y : List Char} (hx : war_free x) (hy : war_free y) :
    war_free (x ++ y) := by
  obtain ⟨hx1, hx2, hx3⟩ := hx
  obtain ⟨hy1, hy2, hy3⟩ := hy
  refine ⟨?_, ?_, ?_⟩
  · intro h
    rcases infix_append_cases h with h | h | ⟨n₁, n₂, hn, hn1, hn2, hsx, hpy⟩
    · exact hx1 h
    · exact hy1 h
    · match n₁, hn1 with
      | c1 :: n₁', _ =>
        match n₁', hn with
        | [], hn =>
          rw [List.cons_append, List.nil_append] at hn
          have hc1 : c1 = 'w' := (List.cons.injEq _ _ _ _).mp hn |>.1
          rw [hc1] at hsx
          exact hx2 hsx
        | [c2], hn =>
          simp only [List.cons_append, List.nil_append, List.cons.injEq] at hn
          obtain ⟨hc1, hc2, hn2'⟩ := hn
          rw [hc1, hc2] at hsx
          exact hx3 hsx
        | c2 :: c3 :: n₁'', hn =>
          simp only [List.cons_append, List.cons.injEq] at hn
          obtain ⟨_, _, _, hnil⟩ := hn
          exact hn2 (List.append_eq_nil.mp hnil).2
  · intro h
    rcases isSuffix_append_cases h with h | ⟨l₁, hl, hsx⟩
    · exact hy2 h
    · match l₁, hl with
      | [], hl =>
        rw [List.nil_append] at hl
        rw [← hl] at hy2
        exact hy2 (List.suffix_refl _)
      | [c1], hl =>
        simp only [List.cons_append, List.nil_append, List.cons.injEq] at hl
        obtain ⟨hc1, hnil⟩ := hl
        cases hc1
        exact hx2 hsx
      | c1 :: c2 :: l₁', hl =>
        simp only [List.cons_append, List.cons.injEq] at hl
        exact absurd hl.2 (by simp)
  · intro h
    rcases isSuffix_append_cases h with h | ⟨l₁, hl, hsx⟩
    · exact hy3 h
    · match l₁, hl with
      | [], hl =>
        rw [List.nil_append] at hl
        rw [← hl] at hy3
        exact hy3 (List.suffix_refl _)
      | [c1], hl =>
        simp only [List.cons_append, List.nil_append, List.cons.injEq] at hl
        obtain ⟨hc1, hy'⟩ := hl
        cases hc1
        exact hx2 hsx
      | [c1, c2], hl =>
        simp only [List.cons_append, List.nil_append, List.cons.injEq] at hl
        obtain ⟨hc1, hc2, hnil⟩ := hl
        cases hc1
        cases hc2
        exact hx3 hsx
      | c1 :: c2 :: c3 :: l₁', hl =>
        simp only [List.cons_append, List.cons.injEq] at hl
        exact absurd hl.2.2 (by simp)

lemma war_free_of_no_w {l : List Char} (h : 'w' ∉ l) : war_free l := by
  refine ⟨fun hc => ?_, fun hc => ?_, fun hc => ?_⟩
  · exact h (hc.sublist.subset (by simp))
  · exact h (hc.sublist.subset (by simp))
  · exact h (hc.sublist.subset (by simp))

lemma lc_data_append (a b : String) : lc_data (a ++ b) = lc_data a ++ lc_data b := by
  simp [lc_data, String.data_append]

lemma war_free_lc_of_acgt {s : String} (h : acgt_only s) : war_free (lc_data s) := by
  apply war_free_of_no_w
  intro hw
  obtain ⟨c, hc, hlc⟩ := List.mem_map.mp hw
  rcases h c hc with rfl | rfl | rfl | rfl <;> exact absurd hlc (by decide)

lemma g_get_acgt {g : Genotypes} (hwf : genotypes_wf g) {rsid s : String}
    (h : g_get g rsid = some s) : acgt_only s := by
  unfold g_get at h
  cases hf : g.find? (fun p => p.1 == rsid) with
  | none => rw [hf] at h; cases h
  | some pr =>
    rw [hf] at h
    cases h
    exact hwf pr (List.mem_of_find?_eq_some hf)

lemma war_free_py_str_genotype {g : Genotypes} (hwf : genotypes_wf g) (rsid : String) :
    war_free (lc_data (py_str (g_get g rsid))) := by
  cases hg : g_get g rsid with
  | none => decide
  | some s =>
    show war_free (lc_data s)
    exact war_free_lc_of_acgt (g_get_acgt hwf hg)

lemma war_free_py_or_na {s : String} (h : acgt_only s) :
    war_free (lc_data (py_or (some s) "NA")) := by
  cases hs : s == "" with
  | true =>
    have hred : py_or (some s) "NA" = "NA" := by simp [py_or, hs]
    rw [hred]
    decide
  | false =>
    have hred : py_or (some s) "NA" = s := by simp [py_or, hs]
    rw [hred]
    exact war_free_lc_of_acgt h

lemma war_free_py_or_na_get {g : Genotypes} (hwf : genotypes_wf g) (rsid : String) :
    war_free (lc_data (py_or (g_get g rsid) "NA")) := by
  cases hg : g_get g rsid with
  | none => decide
  | some s => exact war_free_py_or_na (g_get_acgt hwf hg)

lemma war_free_join {sep : String} {l : List String} (hsep : war_free (lc_data sep))
    (h : ∀ s ∈ l, war_free (lc_data s)) : war_free (lc_data (join_sep sep l)) := by
  induction l with
  | nil =>
    show war_free (lc_data "")
    decide
  | cons x xs ih =>
    cases xs with
    | nil => exact h x (List.mem_singleton.mpr rfl)
    | cons y ys =>
      show war_free (lc_data (x ++ sep ++ join_sep sep (y :: ys)))
      rw [lc_data_append, lc_data_append]
      exact war_free_append
        (war_free_append (h x (List.mem_cons_self _ _)) hsep)
        (ih (fun s hs => h s (List.mem_cons_of_mem _ hs)))

lemma war_free_zygosity (rsid : String) (genotype : Option String) (ra : String)
    (vl : VLookup) : war_free (lc_data (risk_zygosity_label rsid genotype ra vl)) := by
  have h3 : risk_zygosity_label rsid genotype ra vl = "homozygous risk allele" ∨
      risk_zygosity_label rsid genotype ra vl = "heterozygous risk allele" ∨
      risk_zygosity_label rsid genotype ra vl = "risk-allele status uncertain" := by
    simp only [risk_zygosity_label]
    split
    · exact Or.inl rfl
    · split
      · exact Or.inr (Or.inl rfl)
      · exact Or.inr (Or.inr rfl)
  rcases h3 with h | h | h <;> rw [h] <;> decide

lemma war_free_format_pgx_hit {genotype : Option String} {vl : VLookup}
    {label rsid ra : String}
    (hl : war_free (lc_data label)) (hr : war_free (lc_data rsid))
    (hg : war_free (lc_data (py_or genotype "NA"))) :
    war_free (lc_data (format_pgx_hit label rsid genotype ra vl)) := by
  simp only [format_pgx_hit, lc_data_append]
  exact war_free_append (war_free_append (war_free_append (war_free_append
    (war_free_append (war_free_append (war_free_append hl (by decide)) hr)
      (by decide)) hg) (by decide)) (war_free_zygosity rsid genotype ra vl))
    (by decide)

lemma risk_card_combined_data (L lvl D A E C : String) :
    (card_combined_lower (risk_card L lvl D A E C)).data =
      lc_data L ++ lc_data " " ++ lc_data D ++ lc_data " " ++ lc_data A := by
  show lc_data (L ++ " " ++ D ++ " " ++ A) = _
  simp [lc_data_append]

lemma warfarin_card_error_none_of_war_free {c : Card}
    (h : war_free (card_combined_lower c).data) :
    warfarin_card_error c = none := by
  have hm : py_in "warfarin" (card_combined_lower c) = false := by
    cases hp : py_in "warfarin" (card_combined_lower c) with
    | false => rfl
    | true =>
      exfalso
      have hinf : ("warfarin" : String).data <:+: (card_combined_lower c).data := by
        simpa [py_in] using hp
      exact h.1 (List.IsInfix.trans
        (by decide : (['w', 'a', 'r'] : List Char) <:+: ("warfarin" : String).data) hinf)
  simp [warfarin_card_error, hm]

lemma py_in_combined_of_action_part {c : Card} {needle : String} {x y : String}
    (hact : c.action = x ++ y) (h : needle.data <:+: lc_data y) :
    py_in needle (card_combined_lower c) = true := by
  have hsplit : (card_combined_lower c).data =
      (lc_data c.label ++ lc_data " " ++ lc_data c.description ++ lc_data " " ++
        lc_data x) ++ lc_data y := by
    show lc_data (c.label ++ " " ++ c.description ++ " " ++ c.action) = _
    rw [hact]
    simp [lc_data_append, List.append_assoc]
  have hdata : needle.data <:+: (card_combined_lower c).data := by
    rw [hsplit]
    exact infix_append_left_of _ h
  simp [py_in, hdata]

set_option maxRecDepth 40000 in
lemma warfarin_panel_status_needles (g : Genotypes) :
    ("warfarin panel status:" : String).data <:+: lc_data (warfarin_panel_status g) ∧
    ("vkorc1" : String).data <:+: lc_data (warfarin_panel_status g) ∧
    (("present" : String).data <:+: lc_data (warfarin_panel_status g) ∨
     ("missing" : String).data <:+: lc_data (warfarin_panel_status g)) := by
  cases h1 : str_truthy (g_get g "rs9923231") <;>
    cases h2 : str_truthy (g_get g "rs12777823") <;>
      simp only [warfarin_panel_status, h1, h2, Bool.and_true, Bool.and_false,
        Bool.true_and, Bool.false_and, Bool.not_true, Bool.not_false, if_true,
        if_false, Bool.false_eq_true, Bool.true_eq_false] <;>
      decide

lemma warfarin_action_disclaimer_ok {c : Card} (g : Genotypes)
    (hact : c.action = warfarin_action_guidance g ++ " " ++ warfarin_panel_status g) :
    warfarin_card_error c = none := by
  obtain ⟨hn1, hn2, hn3⟩ := warfarin_panel_status_needles g
  have hact' : c.action = (warfarin_action_guidance g ++ " ") ++ warfarin_panel_status g :=
    hact
  have h1 := py_in_combined_of_action_part hact' hn1
  have h2 := py_in_combined_of_action_part hact' hn2
  have h3 : py_in "present" (card_combined_lower c) = true ∨
      py_in "missing" (card_combined_lower c) = true := by
    rcases hn3 with hn | hn
    · exact Or.inl (py_in_combined_of_action_part hact' hn)
    · exact Or.inr (py_in_combined_of_action_part hact' hn)
  unfold warfarin_card_error
  cases hw : py_in "warfarin" (card_combined_lower c) with
  | false => simp [hw]
  | true => rcases h3 with h3 | h3 <;> simp [hw, h1, h2, h3]

lemma mem_if_singleton {α : Type} {b : Prop} [Decidable b] {x s : α}
    (h : s ∈ (if b then [x] else [])) : s = x := by
  split at h
  · exact List.mem_singleton.mp h
  · exact absurd h (List.not_mem_nil _)

set_option maxRecDepth 40000 in
lemma rule_factor_v_ok {g : Genotypes} {vl : VLookup} :
    ∀ c ∈ rule_factor_v g vl, warfarin_card_error c = none := by
  intro c h
  simp only [rule_factor_v] at h
  split at h
  · rw [List.mem_singleton.mp h]
    decide
  · exact absurd h (List.not_mem_nil _)

set_option maxRecDepth 40000 in
lemma rule_prothrombin_ok {g : Genotypes} {vl : VLookup} (hwf : genotypes_wf g) :
    ∀ c ∈ rule_prothrombin g vl, warfarin_card_error c = none := by
  intro c h
  simp only [rule_prothrombin] at h
  split at h
  · rw [List.mem_singleton.mp h]
    apply warfarin_card_error_none_of_war_free
    rw [risk_card_combined_data]
    simp only [lc_data_append]
    repeat' apply war_free_append
    all_goals first
      | decide
      | exact war_free_format_pgx_hit (by decide) (by decide) (war_free_py_or_na_get hwf _)
  · exact absurd h (List.not_mem_nil _)

set_option maxRecDepth 40000 in
lemma rule_slco1b1_ok {g : Genotypes} (hwf : genotypes_wf g) :
    ∀ c ∈ rule_slco1b1 g, warfarin_card_error c = none := by
  intro c h
  simp only [rule_slco1b1] at h
  repeat' split at h
  all_goals first
    | exact absurd h (List.not_mem_nil _)
    | (rw [List.mem_singleton.mp h]
       apply warfarin_card_error_none_of_war_free
       rw [risk_card_combined_data]
       simp only [lc_data_append]
       repeat' apply war_free_append
       all_goals first
         | decide
         | exact war_free_py_str_genotype hwf _)

set_option maxRecDepth 40000 in
lemma rule_vkorc1_ok {g : Genotypes} :
    ∀ c ∈ rule_vkorc1 g, warfarin_card_error c = none := by
  intro c h
  simp only [rule_vkorc1] at h
  repeat' split at h
  all_goals first
    | exact absurd h (List.not_mem_nil _)
    | (rw [List.mem_singleton.mp h]
       exact warfarin_action_disclaimer_ok g rfl)

set_option maxRecDepth 40000 in
lemma rule_cyp3a5_ok {g : Genotypes} {vl : VLookup} (hwf : genotypes_wf g) :
    ∀ c ∈ rule_cyp3a5 g vl, warfarin_card_error c = none := by
  intro c h
  simp only [rule_cyp3a5] at h
  split at h
  · rw [List.mem_singleton.mp h]
    apply warfarin_card_error_none_of_war_free
    rw [risk_card_combined_data]
    simp only [lc_data_append]
    repeat' apply war_free_append
    all_goals first
      | decide
      | exact war_free_format_pgx_hit (by decide) (by decide) (war_free_py_or_na_get hwf _)
  · exact absurd h (List.not_mem_nil _)

set_option maxRecDepth 40000 in
lemma rule_hla_b57_ok {g : Genotypes} :
    ∀ c ∈ rule_hla_b57 g, warfarin_card_error c = none := by
  intro c h
  simp only [rule_hla_b57] at h
  split at h
  · rw [List.mem_singleton.mp h]
    decide
  · exact absurd h (List.not_mem_nil _)

set_option maxRecDepth 40000 in
lemma rule_nat2_ok {g : Genotypes} :
    ∀ c ∈ rule_nat2 g, warfarin_card_error c = none := by
  intro c h
  simp only [rule_nat2] at h
  split at h
  · rw [List.mem_singleton.mp h]
    decide
  · exact absurd h (List.not_mem_nil _)

set_option maxRecDepth 40000 in
lemma rule_abcg2_ok {g : Genotypes} (hwf : genotypes_wf g) :
    ∀ c ∈ rule_abcg2 g, warfarin_card_error c = none := by
  intro c h
  simp only [rule_abcg2] at h
  split at h
  · rw [List.mem_singleton.mp h]
    apply warfarin_card_error_none_of_war_free
    rw [risk_card_combined_data]
    simp only [lc_data_append]
    repeat' apply war_free_append
    all_goals first
      | decide
      | exact war_free_py_str_genotype hwf _
  · exact absurd h (List.not_mem_nil _)

set_option maxRecDepth 40000 in
lemma rule_cyp4f2_ok {g : Genotypes} :
    ∀ c ∈ rule_cyp4f2 g, warfarin_card_error c = none := by
  intro c h
  simp only [rule_cyp4f2] at h
  split at h
  · rw [List.mem_singleton.mp h]
    exact warfarin_action_disclaimer_ok g rfl
  · exact absurd h (List.not_mem_nil _)

set_option maxRecDepth 40000 in
lemma rule_rs12777823_ok {g : Genotypes} :
    ∀ c ∈ rule_rs12777823 g, warfarin_card_error c = none := by
  intro c h
  simp only [rule_rs12777823] at h
  split at h
  · rw [List.mem_singleton.mp h]
    exact warfarin_action_disclaimer_ok g rfl
  · exact absurd h (List.not_mem_nil _)

set_option maxRecDepth 40000 in
lemma rule_cyp2c9_ok {g : Genotypes} {vl : VLookup} :
    ∀ c ∈ rule_cyp2c9 g vl, warfarin_card_error c = none := by
  intro c h
  simp only [rule_cyp2c9] at h
  repeat' split at h
  all_goals first
    | exact absurd h (List.not_mem_nil _)
    | (rw [List.mem_singleton.mp h]
       exact warfarin_action_disclaimer_ok g rfl)

set_option maxRecDepth 40000 in
lemma rule_hbs_ok {g : Genotypes} (hwf : genotypes_wf g) :
    ∀ c ∈ rule_hbs g, warfarin_card_error c = none := by
  intro c h
  simp only [rule_hbs] at h
  repeat' split at h
  all_goals first
    | exact absurd h (List.not_mem_nil _)
    | (rw [List.mem_singleton.mp h]; decide)
    | (rw [List.mem_singleton.mp h]
       apply warfarin_card_error_none_of_war_free
       rw [risk_card_combined_data]
       simp only [lc_data_append]
       repeat' apply war_free_append
       all_goals first
         | decide
         | exact war_free_py_str_genotype hwf _)

set_option maxRecDepth 40000 in
lemma rule_g6pd_ok {g : Genotypes} {sex : Option String} :
    ∀ c ∈ rule_g6pd g sex, warfarin_card_error c = none := by
  intro c h
  simp only [rule_g6pd] at h
  split at h
  · rw [List.mem_singleton.mp h]
    repeat' split
    all_goals decide
  · exact absurd h (List.not_mem_nil _)

set_option maxRecDepth 40000 in
lemma rule_apob_ok {g : Genotypes} :
    ∀ c ∈ rule_apob g, warfarin_card_error c = none := by
  intro c h
  simp only [rule_apob] at h
  split at h
  · rw [List.mem_singleton.mp h]
    decide
  · exact absurd h (List.not_mem_nil _)

set_option maxRecDepth 40000 in
lemma rule_apc_ok {g : Genotypes} :
    ∀ c ∈ rule_apc g, warfarin_card_error c = none := by
  intro c h
  simp only [rule_apc] at h
  split at h
  · rw [List.mem_singleton.mp h]
    decide
  · exact absurd h (List.not_mem_nil _)

set_option maxRecDepth 40000 in
lemma rule_chek2_ok {g : Genotypes} :
    ∀ c ∈ rule_chek2 g, warfarin_card_error c = none := by
  intro c h
  simp only [rule_chek2] at h
  split at h
  · rw [List.mem_singleton.mp h]
    decide
  · exact absurd h (List.not_mem_nil _)

set_option maxRecDepth 40000 in
lemma rule_arms2_ok {g : Genotypes} :
    ∀ c ∈ rule_arms2 g, warfarin_card_error c = none := by
  intro c h
  simp only [rule_arms2] at h
  split at h
  · rw [List.mem_singleton.mp h]
    decide
  · exact absurd h (List.not_mem_nil _)

set_option maxRecDepth 40000 in
lemma rule_chrna5_ok {g : Genotypes} (hwf : genotypes_wf g) :
    ∀ c ∈ rule_chrna5 g, warfarin_card_error c = none := by
  intro c h
  simp only [rule_chrna5] at h
  split at h
  · rw [List.mem_singleton.mp h]
    apply warfarin_card_error_none_of_war_free
    rw [risk_card_combined_data]
    simp only [lc_data_append]
    repeat' apply war_free_append
    all_goals first
      | decide
      | exact war_free_py_str_genotype hwf _
  · exact absurd h (List.not_mem_nil _)

set_option maxRecDepth 40000 in
lemma rule_mthfr_ok {g : Genotypes} :
    ∀ c ∈ rule_mthfr g, warfarin_card_error c = none := by
  intro c h
  simp only [rule_mthfr] at h
  split at h
  · rw [List.mem_singleton.mp h]
    decide
  · exact absurd h (List.not_mem_nil _)

set_option maxRecDepth 40000 in
lemma rule_lpa_ok {g : Genotypes} (hwf : genotypes_wf g) :
    ∀ c ∈ rule_lpa g, warfarin_card_error c = none := by
  intro c h
  simp only [rule_lpa] at h
  split at h
  · rw [List.mem_singleton.mp h]
    apply warfarin_card_error_none_of_war_free
    rw [risk_card_combined_data]
    simp only [lc_data_append]
    repeat' apply war_free_append
    all_goals first
      | decide
      | exact war_free_py_str_genotype hwf _
  · exact absurd h (List.not_mem_nil _)

set_option maxRecDepth 40000 in
lemma rule_cfh_ok {g : Genotypes} (hwf : genotypes_wf g) :
    ∀ c ∈ rule_cfh g, warfarin_card_error c = none := by
  intro c h
  simp only [rule_cfh] at h
  split at h
  · rw [List.mem_singleton.mp h]
    apply warfarin_card_error_none_of_war_free
    rw [risk_card_combined_data]
    simp only [lc_data_append]
    repeat' apply war_free_append
    all_goals first
      | decide
      | exact war_free_py_str_genotype hwf _
  · exact absurd h (List.not_mem_nil _)

set_option maxRecDepth 40000 in
lemma rule_9p21_ok {g : Genotypes} (hwf : genotypes_wf g) :
    ∀ c ∈ rule_9p21 g, warfarin_card_error c = none := by
  intro c h
  simp only [rule_9p21] at h
  split at h
  · rw [List.mem_singleton.mp h]
    apply warfarin_card_error_none_of_war_free
    rw [risk_card_combined_data]
    simp only [lc_data_append]
    repeat' apply war_free_append
    all_goals first
      | decide
      | exact war_free_py_str_genotype hwf _
  · exact absurd h (List.not_mem_nil _)

lemma mem_ite_nil {α : Type} {b : Prop} [Decidable b] {l : List α} {c : α}
    (h : c ∈ (if b then l else [])) : c ∈ l := by
  by_cases hb : b
  · rwa [if_pos hb] at h
  · rw [if_neg hb] at h
    exact absurd h (List.not_mem_nil _)

lemma mem_ite_or {α : Type} {b : Prop} [Decidable b] {l₁ l₂ : List α} {c : α}
    (h : c ∈ (if b then l₁ else l₂)) : c ∈ l₁ ∨ c ∈ l₂ := by
  by_cases hb : b
  · rw [if_pos hb] at h
    exact Or.inl h
  · rw [if_neg hb] at h
    exact Or.inr h

set_option maxRecDepth 40000 in
lemma rule_serpina1_ok {g : Genotypes} {vl : VLookup} (hwf : genotypes_wf g) :
    ∀ c ∈ rule_serpina1 g vl, warfarin_card_error c = none := by
  intro c h
  simp only [rule_serpina1] at h
  rw [List.mem_singleton.mp (mem_ite_nil h)]
  apply warfarin_card_error_none_of_war_free
  rw [risk_card_combined_data]
  try simp only [lc_data_append]
  repeat' apply war_free_append
  all_goals first
    | decide
    | (repeat' split
       all_goals first
         | decide
         | ((try simp only [lc_data_append])
            repeat' apply war_free_append
            all_goals first
              | decide
              | (apply war_free_join (by decide)
                 intro s hs
                 repeat' rcases List.mem_append.mp hs with hs | hs
                 all_goals first
                   | exact absurd hs (List.not_mem_nil _)
                   | (rw [List.mem_singleton.mp hs]; decide)
                   | (rw [List.mem_singleton.mp hs]
                      exact war_free_format_pgx_hit (by decide) (by decide)
                        (war_free_py_or_na_get hwf _))
                   | (rw [mem_if_singleton hs]; decide)
                   | (rw [mem_if_singleton hs]
                      exact war_free_format_pgx_hit (by decide) (by decide)
                        (war_free_py_or_na_get hwf _)))))

set_option maxRecDepth 40000 in
lemma rule_ugt1a1_ok {g : Genotypes} {vl : VLookup} (hwf : genotypes_wf g) :
    ∀ c ∈ rule_ugt1a1 g vl, warfarin_card_error c = none := by
  intro c h
  simp only [rule_ugt1a1] at h
  rw [List.mem_singleton.mp (mem_ite_nil h)]
  apply warfarin_card_error_none_of_war_free
  rw [risk_card_combined_data]
  simp only [lc_data_append]
  repeat' apply war_free_append
  all_goals first
    | decide
    | (apply war_free_join (by decide)
       intro s hs
       repeat' rcases List.mem_append.mp hs with hs | hs
       all_goals first
         | exact absurd hs (List.not_mem_nil _)
         | (rw [mem_if_singleton hs]; decide)
         | (rw [mem_if_singleton hs]
            exact war_free_format_pgx_hit (by decide) (by decide)
              (war_free_py_or_na_get hwf _)))

set_option maxRecDepth 40000 in
lemma rule_cyp2b6_ok {g : Genotypes} {vl : VLookup} (hwf : genotypes_wf g) :
    ∀ c ∈ rule_cyp2b6 g vl, warfarin_card_error c = none := by
  intro c h
  simp only [rule_cyp2b6] at h
  rw [List.mem_singleton.mp (mem_ite_nil h)]
  apply warfarin_card_error_none_of_war_free
  rw [risk_card_combined_data]
  simp only [lc_data_append]
  repeat' apply war_free_append
  all_goals first
    | decide
    | (apply war_free_join (by decide)
       intro s hs
       repeat' rcases List.mem_append.mp hs with hs | hs
       all_goals first
         | exact absurd hs (List.not_mem_nil _)
         | (rw [mem_if_singleton hs]; decide)
         | (rw [mem_if_singleton hs]
            exact war_free_format_pgx_hit (by decide) (by decide)
              (war_free_py_or_na_get hwf _)))
    | (repeat' split
       all_goals first
         | decide
         | ((try simp only [lc_data_append])
            repeat' apply war_free_append
            all_goals first
              | decide
              | (apply war_free_join (by decide)
                 intro s hs
                 repeat' rcases List.mem_append.mp hs with hs | hs
                 all_goals first
                   | exact absurd hs (List.not_mem_nil _)
                   | (rw [List.mem_singleton.mp hs]; decide)
                   | (rw [mem_if_singleton hs]; decide))))

set_option maxRecDepth 40000 in
lemma rule_cyp2c19_ok {g : Genotypes} {vl : VLookup} (hwf : genotypes_wf g) :
    ∀ c ∈ rule_cyp2c19 g vl, warfarin_card_error c = none := by
  intro c h
  simp only [rule_cyp2c19] at h
  rcases mem_ite_or h with h | h
  · rw [List.mem_singleton.mp (mem_ite_nil h)]
    apply warfarin_card_error_none_of_war_free
    rw [risk_card_combined_data]
    simp only [lc_data_append]
    repeat' apply war_free_append
    all_goals first
      | decide
      | (apply war_free_join (by decide)
         intro s hs
         repeat' rcases List.mem_append.mp hs with hs | hs
         all_goals first
           | exact absurd hs (List.not_mem_nil _)
           | (rw [mem_if_singleton hs]; decide)
           | (rw [mem_if_singleton hs]
              exact war_free_format_pgx_hit (by decide) (by decide)
                (war_free_py_or_na_get hwf _)))
      | (repeat' split
         all_goals first
           | decide
           | ((try simp only [lc_data_append])
              repeat' apply war_free_append
              all_goals first
                | decide
                | (apply war_free_join (by decide)
                   intro s hs
                   repeat' rcases List.mem_append.mp hs with hs | hs
                   all_goals first
                     | exact absurd hs (List.not_mem_nil _)
                     | (rw [List.mem_singleton.mp hs]; decide)
                     | (rw [mem_if_singleton hs]; decide))))
  · rw [List.mem_singleton.mp (mem_ite_nil h)]
    apply warfarin_card_error_none_of_war_free
    rw [risk_card_combined_data]
    simp only [lc_data_append]
    repeat' apply war_free_append
    all_goals first
      | decide
      | exact war_free_format_pgx_hit (by decide) (by decide)
          (war_free_py_or_na_get hwf _)
      | (repeat' split
         all_goals first
           | decide
           | ((try simp only [lc_data_append])
              repeat' apply war_free_append
              all_goals first
                | decide
                | (apply war_free_join (by decide)
                   intro s hs
                   repeat' rcases List.mem_append.mp hs with hs | hs
                   all_goals first
                     | exact absurd hs (List.not_mem_nil _)
                     | (rw [List.mem_singleton.mp hs]; decide)
                     | (rw [mem_if_singleton hs]; decide))))

set_option maxRecDepth 40000 in
lemma rule_thiopurine_ok {g : Genotypes} {vl : VLookup} (hwf : genotypes_wf g) :
    ∀ c ∈ rule_thiopurine g vl, warfarin_card_error c = none := by
  intro c h
  simp only [rule_thiopurine] at h
  rw [List.mem_singleton.mp (mem_ite_nil h)]
  apply warfarin_card_error_none_of_war_free
  rw [risk_card_combined_data]
  simp only [lc_data_append]
  repeat' apply war_free_append
  all_goals first
    | decide
    | (apply war_free_join (by decide)
       intro s hs
       repeat' rcases List.mem_append.mp hs with hs | hs
       all_goals first
         | exact absurd hs (List.not_mem_nil _)
         | (rw [mem_if_singleton hs]; decide)
         | (rw [mem_if_singleton hs]
            exact war_free_format_pgx_hit (by decide) (by decide)
              (war_free_py_or_na_get hwf _)))
    | (repeat' split
       all_goals first
         | decide
         | ((try simp only [lc_data_append])
            repeat' apply war_free_append
            all_goals first
              | decide
              | (apply war_free_join (by decide)
                 intro s hs
                 repeat' rcases List.mem_append.mp hs with hs | hs
                 all_goals first
                   | exact absurd hs (List.not_mem_nil _)
                   | (rw [List.mem_singleton.mp hs]; decide)
                   | (rw [mem_if_singleton hs]; decide))))

set_option maxRecDepth 40000 in
lemma rule_dpyd_ok {g : Genotypes} {vl : VLookup} (hwf : genotypes_wf g) :
    ∀ c ∈ rule_dpyd g vl, warfarin_card_error c = none := by
  have hvar : ∀ s ∈ dpyd_marker_table.filterMap (fun m =>
      match g_get g m.1 with
      | none => none
      | some gt =>
        if risk_allele_present m.1 (some gt) m.2.1 vl then
          some (format_pgx_hit m.2.2 m.1 (some gt) m.2.1 vl)
        else none), war_free (lc_data s) := by
    intro s hs
    obtain ⟨m, hm, hf⟩ := List.mem_filterMap.mp hs
    cases hg : g_get g m.1 with
    | none =>
      rw [hg] at hf
      have hf' : (none : Option String) = some s := hf
      exact absurd hf' (by simp)
    | some gt =>
      rw [hg] at hf
      have hf' : (if risk_allele_present m.1 (some gt) m.2.1 vl = true then
          some (format_pgx_hit m.2.2 m.1 (some gt) m.2.1 vl) else none) = some s := hf
      split at hf'
      · rw [← Option.some.inj hf']
        refine war_free_format_pgx_hit ?_ ?_ (war_free_py_or_na (g_get_acgt hwf hg))
        · fin_cases hm <;> decide
        · fin_cases hm <;> decide
      · exact absurd hf' (by simp)
  have hmiss : ∀ s ∈ dpyd_marker_table.filterMap (fun m =>
      if (g_get g m.1).isNone then some m.1 else none), war_free (lc_data s) := by
    intro s hs
    obtain ⟨m, hm, hf⟩ := List.mem_filterMap.mp hs
    split at hf
    · rw [← Option.some.inj hf]
      fin_cases hm <;> decide
    · exact absurd hf (by simp)
  intro c h
  simp only [rule_dpyd] at h
  rw [List.mem_singleton.mp (mem_ite_nil h)]
  apply warfarin_card_error_none_of_war_free
  rw [risk_card_combined_data]
  simp only [lc_data_append]
  repeat' apply war_free_append
  all_goals first
    | decide
    | exact war_free_join (by decide) hvar
    | (repeat' split
       all_goals first
         | decide
         | ((try simp only [lc_data_append])
            repeat' apply war_free_append
            all_goals first
              | decide
              | exact war_free_join (by decide) hmiss))

set_option maxRecDepth 40000 in
lemma esc_step_card_ok {existing : List String} {g : Genotypes} {vl : VLookup}
    {rule : EscRule} {c : Card} (hr : rule ∈ high_evidence_pgx_escalation)
    (h : esc_step existing g vl rule = some c) :
    warfarin_card_error c = none := by
  fin_cases hr <;>
    (unfold esc_step at h
     split at h
     · exact absurd h (by simp)
     · split at h
       · exact absurd h (by simp)
       · rw [← Option.some.inj h]
         apply warfarin_card_error_none_of_war_free
         rw [risk_card_combined_data]
         try simp only [lc_data_append]
         repeat' apply war_free_append
         all_goals first
           | decide
           | (apply war_free_join (by decide)
              intro s hs
              simp only [esc_hits] at hs
              obtain ⟨m, hm, hf⟩ := List.mem_filterMap.mp hs
              split at hf
              · rw [← Option.some.inj hf]
                fin_cases hm <;> decide
              · exact absurd hf (by simp)))

set_option maxHeartbeats 4000000 in
lemma escalated_cards_ok (g : Genotypes) (vl : VLookup) (sex : Option String)
    (hwf : genotypes_wf g) :
    ∀ c ∈ escalate_high_evidence_pgx (build_risk_cards g vl sex) g vl,
      warfarin_card_error c = none := by
  intro c hc
  rw [escalate_high_evidence_pgx] at hc
  rcases List.mem_append.mp hc with hc | hc
  · rw [build_risk_cards, List.mem_mergeSort, cards_pre] at hc
    simp only [List.mem_append, or_assoc] at hc
    rcases hc with h|h|h|h|h|h|h|h|h|h|h|h|h|h|h|h|h|h|h|h|h|h|h|h|h|h|h|h
    · exact rule_cyp2c9_ok c h
    · exact rule_factor_v_ok c h
    · exact rule_prothrombin_ok hwf c h
    · exact rule_cyp2c19_ok hwf c h
    · exact rule_slco1b1_ok hwf c h
    · exact rule_vkorc1_ok c h
    · exact rule_cyp3a5_ok hwf c h
    · exact rule_cyp2b6_ok hwf c h
    · exact rule_ugt1a1_ok hwf c h
    · exact rule_hla_b57_ok c h
    · exact rule_nat2_ok c h
    · exact rule_abcg2_ok hwf c h
    · exact rule_cyp4f2_ok c h
    · exact rule_rs12777823_ok c h
    · exact rule_dpyd_ok hwf c h
    · exact rule_thiopurine_ok hwf c h
    · exact rule_hbs_ok hwf c h
    · exact rule_serpina1_ok hwf c h
    · exact rule_g6pd_ok c h
    · exact rule_apob_ok c h
    · exact rule_apc_ok c h
    · exact rule_chek2_ok c h
    · exact rule_arms2_ok c h
    · exact rule_chrna5_ok hwf c h
    · exact rule_mthfr_ok c h
    · exact rule_lpa_ok hwf c h
    · exact rule_cfh_ok hwf c h
    · exact rule_9p21_ok hwf c h
  · obtain ⟨rule, hrule, hstep⟩ := List.mem_filterMap.mp hc
    exact esc_step_card_ok hrule hstep

lemma warfarin_card_error_none_elim {c : Card}
    (h : warfarin_card_error c = none)
    (hm : py_in "warfarin" (card_combined_lower c) = true) :
    py_in "warfarin panel status:" (card_combined_lower c) = true ∧
    py_in "vkorc1" (card_combined_lower c) = true ∧
    (py_in "present" (card_combined_lower c) = true ∨
     py_in "missing" (card_combined_lower c) = true) := by
  simp only [warfarin_card_error] at h
  rw [hm] at h
  cases h1 : py_in "warfarin panel status:" (card_combined_lower c) <;>
  cases h2 : py_in "vkorc1" (card_combined_lower c) <;>
  cases h3 : py_in "present" (card_combined_lower c) <;>
  cases h4 : py_in "missing" (card_combined_lower c) <;>
    simp [h1, h2, h3, h4] at h ⊢

lemma risk_allele_count_zero_of_match_not_ok {rsid : String} {vl : VLookup}
    (h : variant_match_ok rsid vl = false) (gt : Option String) (ra : String) :
    risk_allele_count rsid gt ra vl = 0 := by
  simp only [risk_allele_count, h, Bool.not_false, if_true]
  split <;> rfl

/-- C2 counterexample: with rs4149056 = "CC" and a verification entry declaring
match_status "mismatch", `_build_risk_cards` still emits a
"Statin Myopathy Risk" card, even though the Resolver returns 0 for this
marker: the SLCO1B1 rule tests allele presence directly, not via the Resolver,
refuting the claim that every marker rule evaluates allele presence through the
Resolver. -/
theorem C2_counterexample :
    "Statin Myopathy Risk" ∈
      (build_risk_cards [("rs4149056", "CC")]
        (some [("rs4149056", ⟨some "mismatch", some "T/C", none⟩)]) none).map (·.label) ∧
    risk_allele_count "rs4149056" (some "CC") "C"
      (some [("rs4149056", ⟨some "mismatch", some "T/C", none⟩)]) = 0 := by
  constructor
  · rw [build_risk_cards, List.mergeSort_of_sorted (by decide)]
    decide
  · decide

set_option maxHeartbeats 4000000 in
/-- C2 (amended): marker rules that do evaluate presence through the Resolver
are suppressed by a declared mismatch — e.g. with a "mismatch" (or
"non_snp_mismatch") verification entry for rs776746, the CYP3A5 rule
contributes a count of 0 and no "Tacrolimus Metabolism" card is built,
whatever the genotype store holds. -/
theorem C2_amended_resolver_rule_suppressed (g : Genotypes) (vl : VLookup)
    (sex : Option String) (e : VEntry)
    (hget : vl_get vl "rs776746" = some e)
    (hms : e.match_status = some "mismatch" ∨ e.match_status = some "non_snp_mismatch") :
    "Tacrolimus Metabolism" ∉ (build_risk_cards g vl sex).map (·.label) := by
  intro hmem
  obtain ⟨c, hc, hlabel⟩ := List.mem_map.mp hmem
  rw [build_risk_cards, List.mem_mergeSort, cards_pre] at hc
  simp only [List.mem_append, or_assoc] at hc
  have hz := risk_allele_count_zero_of_match_not_ok
    (variant_match_ok_false_of_mismatch hget hms) (g_get g "rs776746") "A"
  have hpres : risk_allele_present "rs776746" (g_get g "rs776746") "A" vl = false := by
    simp [risk_allele_present, hz]
  rcases hc with h|h|h|h|h|h|h|h|h|h|h|h|h|h|h|h|h|h|h|h|h|h|h|h|h|h|h|h
  · simp only [rule_cyp2c9] at h
    repeat' split at h
    all_goals first
      | exact List.not_mem_nil _ h
      | (rw [List.mem_singleton.mp h] at hlabel; simp [risk_card] at hlabel)
  · simp only [rule_factor_v] at h
    repeat' split at h
    all_goals first
      | exact List.not_mem_nil _ h
      | (rw [List.mem_singleton.mp h] at hlabel; simp [risk_card] at hlabel)
  · simp only [rule_prothrombin] at h
    repeat' split at h
    all_goals first
      | exact List.not_mem_nil _ h
      | (rw [List.mem_singleton.mp h] at hlabel; simp [risk_card] at hlabel)
  · simp only [rule_cyp2c19] at h
    repeat' split at h
    all_goals first
      | exact List.not_mem_nil _ h
      | (rw [List.mem_singleton.mp h] at hlabel; simp [risk_card] at hlabel)
  · simp only [rule_slco1b1] at h
    repeat' split at h
    all_goals first
      | exact List.not_mem_nil _ h
      | (rw [List.mem_singleton.mp h] at hlabel; simp [risk_card] at hlabel)
  · simp only [rule_vkorc1] at h
    repeat' split at h
    all_goals first
      | exact List.not_mem_nil _ h
      | (rw [List.mem_singleton.mp h] at hlabel; simp [risk_card] at hlabel)
  · simp only [rule_cyp3a5, hpres] at h
    simp at h
  · simp only [rule_cyp2b6] at h
    repeat' split at h
    all_goals first
      | exact List.not_mem_nil _ h
      | (rw [List.mem_singleton.mp h] at hlabel; simp [risk_card] at hlabel)
  · simp only [rule_ugt1a1] at h
    repeat' split at h
    all_goals first
      | exact List.not_mem_nil _ h
      | (rw [List.mem_singleton.mp h] at hlabel; simp [risk_card] at hlabel)
  · simp only [rule_hla_b57] at h
    repeat' split at h
    all_goals first
      | exact List.not_mem_nil _ h
      | (rw [List.mem_singleton.mp h] at hlabel; simp [risk_card] at hlabel)
  · simp only [rule_nat2] at h
    repeat' split at h
    all_goals first
      | exact List.not_mem_nil _ h
      | (rw [List.mem_singleton.mp h] at hlabel; simp [risk_card] at hlabel)
  · simp only [rule_abcg2] at h
    repeat' split at h
    all_goals first
      | exact List.not_mem_nil _ h
      | (rw [List.mem_singleton.mp h] at hlabel; simp [risk_card] at hlabel)
  · simp only [rule_cyp4f2] at h
    repeat' split at h
    all_goals first
      | exact List.not_mem_nil _ h
      | (rw [List.mem_singleton.mp h] at hlabel; simp [risk_card] at hlabel)
  · simp only [rule_rs12777823] at h
    repeat' split at h
    all_goals first
      | exact List.not_mem_nil _ h
      | (rw [List.mem_singleton.mp h] at hlabel; simp [risk_card] at hlabel)
  · simp only [rule_dpyd] at h
    repeat' split at h
    all_goals first
      | exact List.not_mem_nil _ h
      | (rw [List.mem_singleton.mp h] at hlabel; simp [risk_card] at hlabel)
  · simp only [rule_thiopurine] at h
    repeat' split at h
    all_goals first
      | exact List.not_mem_nil _ h
      | (rw [List.mem_singleton.mp h] at hlabel; simp [risk_card] at hlabel)
  · simp only [rule_hbs] at h
    repeat' split at h
    all_goals first
      | exact List.not_mem_nil _ h
      | (rw [List.mem_singleton.mp h] at hlabel; simp [risk_card] at hlabel)
  · simp only [rule_serpina1] at h
    repeat' split at h
    all_goals first
      | exact List.not_mem_nil _ h
      | (rw [List.mem_singleton.mp h] at hlabel; simp [risk_card] at hlabel)
  · simp only [rule_g6pd] at h
    repeat' split at h
    all_goals first
      | exact List.not_mem_nil _ h
      | (rw [List.mem_singleton.mp h] at hlabel; simp [risk_card] at hlabel)
  · simp only [rule_apob] at h
    repeat' split at h
    all_goals first
      | exact List.not_mem_nil _ h
      | (rw [List.mem_singleton.mp h] at hlabel; simp [risk_card] at hlabel)
  · simp only [rule_apc] at h
    repeat' split at h
    all_goals first
      | exact List.not_mem_nil _ h
      | (rw [List.mem_singleton.mp h] at hlabel; simp [risk_card] at hlabel)
  · simp only [rule_chek2] at h
    repeat' split at h
    all_goals first
      | exact List.not_mem_nil _ h
      | (rw [List.mem_singleton.mp h] at hlabel; simp [risk_card] at hlabel)
  · simp only [rule_arms2] at h
    repeat' split at h
    all_goals first
      | exact List.not_mem_nil _ h
      | (rw [List.mem_singleton.mp h] at hlabel; simp [risk_card] at hlabel)
  · simp only [rule_chrna5] at h
    repeat' split at h
    all_goals first
      | exact List.not_mem_nil _ h
      | (rw [List.mem_singleton.mp h] at hlabel; simp [risk_card] at hlabel)
  · simp only [rule_mthfr] at h
    repeat' split at h
    all_goals first
      | exact List.not_mem_nil _ h
      | (rw [List.mem_singleton.mp h] at hlabel; simp [risk_card] at hlabel)
  · simp only [rule_lpa] at h
    repeat' split at h
    all_goals first
      | exact List.not_mem_nil _ h
      | (rw [List.mem_singleton.mp h] at hlabel; simp [risk_card] at hlabel)
  · simp only [rule_cfh] at h
    repeat' split at h
    all_goals first
      | exact List.not_mem_nil _ h
      | (rw [List.mem_singleton.mp h] at hlabel; simp [risk_card] at hlabel)
  · simp only [rule_9p21] at h
    repeat' split at h
    all_goals first
      | exact List.not_mem_nil _ h
      | (rw [List.mem_singleton.mp h] at hlabel; simp [risk_card] at hlabel)

/-- Witness for the amended C2 theorem at a concrete mismatch feed. -/
theorem C2_amended_witness :
    vl_get (some [("rs776746", ⟨some "mismatch", some "A/G", none⟩)]) "rs776746" =
      some ⟨some "mismatch", some "A/G", none⟩ ∧
    "Tacrolimus Metabolism" ∉
      (build_risk_cards [("rs776746", "AA")]
        (some [("rs776746", ⟨some "mismatch", some "A/G", none⟩)]) none).map (·.label) :=
  ⟨rfl, C2_amended_resolver_rule_suppressed [("rs776746", "AA")]
    (some [("rs776746", ⟨some "mismatch", some "A/G", none⟩)]) none
    ⟨some "mismatch", some "A/G", none⟩ rfl (Or.inl rfl)⟩

lemma card_le_trans : ∀ a b c : Card, card_le a b → card_le b c → card_le a c := by
  intro a b c hab hbc
  simp only [card_le, decide_eq_true_eq] at *
  exact Nat.le_trans hab hbc

lemma card_le_total : ∀ a b : Card, card_le a b || card_le b a := by
  intro a b
  simp only [card_le]
  rcases Nat.le_total (level_rank a) (level_rank b) with h | h <;> simp [h]

/-- C8: `_build_risk_cards` returns its cards sorted by severity rank (so every
"high" card precedes every "med" card, which precede "low", then "neutral"),
and the sort is stable: for each level, the cards of that level appear in the
same order as in the unsorted rule-evaluation list. -/
theorem C8_cards_sorted_and_stable (g : Genotypes) (vl : VLookup) (sex : Option String) :
    (build_risk_cards g vl sex).Pairwise (fun a b => level_rank a ≤ level_rank b) ∧
    ∀ lvl : String,
      (build_risk_cards g vl sex).filter (fun c => c.level == lvl) =
        (cards_pre g vl sex).filter (fun c => c.level == lvl) := by
  constructor
  · have h := List.sorted_mergeSort card_le_trans card_le_total (cards_pre g vl sex)
    rw [build_risk_cards]
    exact h.imp (fun hab => by simpa [card_le] using hab)
  · intro lvl
    rw [build_risk_cards]
    generalize cards_pre g vl sex = pre
    have hpair : (pre.filter (fun c => c.level == lvl)).Pairwise
        (fun a b => card_le a b) := by
      apply List.pairwise_of_forall_mem_list
      intro a ha b hb
      have ha' := List.of_mem_filter ha
      have hb' := List.of_mem_filter hb
      have hlv : a.level = b.level := by
        rw [eq_of_beq ha', eq_of_beq hb']
      simp [card_le, level_rank, hlv]
    have hsub : List.Sublist (pre.filter (fun c => c.level == lvl))
        (pre.mergeSort card_le) :=
      List.sublist_mergeSort card_le_trans card_le_total hpair
        (List.filter_sublist _)
    have hidem : (pre.filter (fun c => c.level == lvl)).filter (fun c => c.level == lvl) =
        pre.filter (fun c => c.level == lvl) :=
      List.filter_eq_self.mpr (by intro a ha; exact (List.mem_filter.mp ha).2)
    have hsub2 : List.Sublist (pre.filter (fun c => c.level == lvl))
        ((pre.mergeSort card_le).filter (fun c => c.level == lvl)) := by
      have h := hsub.filter (fun c => c.level == lvl)
      rwa [hidem] at h
    have hperm : List.Perm ((pre.mergeSort card_le).filter (fun c => c.level == lvl))
        (pre.filter (fun c => c.level == lvl)) :=
      (List.mergeSort_perm _ _).filter _
    exact (hsub2.eq_of_length hperm.length_eq.symm).symm

/-- C9: for a non-empty entry list the panel summary row exists, its status is
"risk" when some child is risk-flagged, else "missing" when some child is
uncalled or has only a non-SNP call, else "proxy" when some called child is a
proxy, else "protective"; and its detail text contains every contributing rsid
of every non-empty bucket. -/
theorem C9_panel_summary_row_spec (panel_name : String) (entries : List PanelEntry)
    (g : Genotypes) (non_snp : Option Genotypes) (vl : VLookup)
    (hne : entries ≠ []) :
    ∃ r, panel_summary_row panel_name entries g non_snp vl = some r ∧
      (r.status = some (
        if (summary_buckets entries g (non_snp_or_empty non_snp) vl).risk_rsids.isEmpty = false
          then "risk"
        else if (summary_buckets entries g (non_snp_or_empty non_snp) vl).missing_rsids.isEmpty = false ∨
            (summary_buckets entries g (non_snp_or_empty non_snp) vl).non_snp_calls.isEmpty = false
          then "missing"
        else if (summary_buckets entries g (non_snp_or_empty non_snp) vl).proxy_rsids.isEmpty = false
          then "proxy"
        else "protective")) ∧
      (∀ rsid ∈ (summary_buckets entries g (non_snp_or_empty non_snp) vl).risk_rsids ++
          (summary_buckets entries g (non_snp_or_empty non_snp) vl).proxy_rsids ++
          (summary_buckets entries g (non_snp_or_empty non_snp) vl).missing_rsids ++
          (summary_buckets entries g (non_snp_or_empty non_snp) vl).non_snp_calls.map (·.1),
        ∃ d, r.detail = some d ∧ rsid.data <:+: d.data) := by
  have hempty : entries.isEmpty = false := by
    cases h : entries.isEmpty
    · rfl
    · rw [List.isEmpty_iff] at h
      exact absurd h hne
  set b := summary_buckets entries g (non_snp_or_empty non_snp) vl with hb
  refine ⟨_, by rw [panel_summary_row, hempty]; rfl, ?_, ?_⟩
  · show some _ = some _
    congr 1
    cases hr : b.risk_rsids.isEmpty <;>
      cases hm : b.missing_rsids.isEmpty <;>
        cases hn : b.non_snp_calls.isEmpty <;>
          cases hp : b.proxy_rsids.isEmpty <;>
            simp [hr, hm, hn, hp]
  · intro rsid hmem
    have core : ∃ p ∈ summary_detail_parts panel_name b, rsid.data <:+: p.data := by
      rcases List.mem_append.mp hmem with h3 | hns
      · rcases List.mem_append.mp h3 with h2 | hmiss
        · rcases List.mem_append.mp h2 with hrisk | hproxy
          · have hbne : b.risk_rsids.isEmpty = false := by
              cases h : b.risk_rsids.isEmpty
              · rfl
              · rw [List.isEmpty_iff] at h
                rw [h] at hrisk
                cases hrisk
            refine ⟨"Risk markers: " ++ join_sep ", " b.risk_rsids, ?_, ?_⟩
            · simp [summary_detail_parts, hbne]
            · rw [String.data_append]
              exact infix_append_left_of _ (infix_join_of_mem _ hrisk)
          · have hbne : b.proxy_rsids.isEmpty = false := by
              cases h : b.proxy_rsids.isEmpty
              · rfl
              · rw [List.isEmpty_iff] at h
                rw [h] at hproxy
                cases hproxy
            refine ⟨"Proxy markers: " ++ join_sep ", " b.proxy_rsids, ?_, ?_⟩
            · simp [summary_detail_parts, hbne]
            · rw [String.data_append]
              exact infix_append_left_of _ (infix_join_of_mem _ hproxy)
        · have hbne : b.missing_rsids.isEmpty = false := by
            cases h : b.missing_rsids.isEmpty
            · rfl
            · rw [List.isEmpty_iff] at h
              rw [h] at hmiss
              cases hmiss
          refine ⟨"Missing markers: " ++ join_sep ", " b.missing_rsids, ?_, ?_⟩
          · simp [summary_detail_parts, hbne]
          · rw [String.data_append]
            exact infix_append_left_of _ (infix_join_of_mem _ hmiss)
      · obtain ⟨p, hpmem, hfst⟩ := List.mem_map.mp hns
        have hbne : b.non_snp_calls.isEmpty = false := by
          cases h : b.non_snp_calls.isEmpty
          · rfl
          · rw [List.isEmpty_iff] at h
            rw [h] at hpmem
            cases hpmem
        refine ⟨"Non-SNP calls: " ++
          join_sep ", " (b.non_snp_calls.map (fun q => q.1 ++ "=" ++ q.2)), ?_, ?_⟩
        · simp [summary_detail_parts, hbne]
        · rw [String.data_append]
          apply infix_append_left_of
          have helem : (p.1 ++ "=" ++ p.2) ∈
              b.non_snp_calls.map (fun q => q.1 ++ "=" ++ q.2) :=
            List.mem_map_of_mem _ hpmem
          have hinner : rsid.data <:+: (p.1 ++ "=" ++ p.2).data := by
            rw [String.data_append, String.data_append, ← hfst]
            exact infix_append_right_of _ (infix_append_right_of _ (List.infix_refl _))
          exact hinner.trans (infix_join_of_mem _ helem)
    obtain ⟨p, hpmem, hinf⟩ := core
    obtain ⟨hdetail, hpart⟩ := detail_parts_nonempty_detail hpmem
    refine ⟨join_sep "; " (summary_detail_parts panel_name b), ?_, hinf.trans hpart⟩
    show (if !(summary_detail_parts panel_name b).isEmpty then
      some (join_sep "; " (summary_detail_parts panel_name b)) else none) = some _
    exact hdetail

/-- Witness for C9 at a concrete panel: one risk-flagged child and one child
with only a non-SNP call. -/
theorem C9_witness :
    ([⟨"rs1", some "A"⟩, ⟨"rs2", some "T"⟩] : List PanelEntry) ≠ [] ∧
    ∃ r, panel_summary_row "Functional Health - Iron Metabolism"
        [⟨"rs1", some "A"⟩, ⟨"rs2", some "T"⟩]
        [("rs1", "AA")] (some [("rs2", "II DD")]) none = some r ∧
      (r.status = some (
        if (summary_buckets [⟨"rs1", some "A"⟩, ⟨"rs2", some "T"⟩] [("rs1", "AA")]
            (non_snp_or_empty (some [("rs2", "II DD")])) none).risk_rsids.isEmpty = false
          then "risk"
        else if (summary_buckets [⟨"rs1", some "A"⟩, ⟨"rs2", some "T"⟩] [("rs1", "AA")]
            (non_snp_or_empty (some [("rs2", "II DD")])) none).missing_rsids.isEmpty = false ∨
            (summary_buckets [⟨"rs1", some "A"⟩, ⟨"rs2", some "T"⟩] [("rs1", "AA")]
            (non_snp_or_empty (some [("rs2", "II DD")])) none).non_snp_calls.isEmpty = false
          then "missing"
        else if (summary_buckets [⟨"rs1", some "A"⟩, ⟨"rs2", some "T"⟩] [("rs1", "AA")]
            (non_snp_or_empty (some [("rs2", "II DD")])) none).proxy_rsids.isEmpty = false
          then "proxy"
        else "protective")) ∧
      (∀ rsid ∈ (summary_buckets [⟨"rs1", some "A"⟩, ⟨"rs2", some "T"⟩] [("rs1", "AA")]
            (non_snp_or_empty (some [("rs2", "II DD")])) none).risk_rsids ++
          (summary_buckets [⟨"rs1", some "A"⟩, ⟨"rs2", some "T"⟩] [("rs1", "AA")]
            (non_snp_or_empty (some [("rs2", "II DD")])) none).proxy_rsids ++
          (summary_buckets [⟨"rs1", some "A"⟩, ⟨"rs2", some "T"⟩] [("rs1", "AA")]
            (non_snp_or_empty (some [("rs2", "II DD")])) none).missing_rsids ++
          (summary_buckets [⟨"rs1", some "A"⟩, ⟨"rs2", some "T"⟩] [("rs1", "AA")]
            (non_snp_or_empty (some [("rs2", "II DD")])) none).non_snp_calls.map (·.1),
        ∃ d, r.detail = some d ∧ rsid.data <:+: d.data) :=
  ⟨by decide, C9_panel_summary_row_spec "Functional Health - Iron Metabolism"
    [⟨"rs1", some "A"⟩, ⟨"rs2", some "T"⟩] [("rs1", "AA")]
    (some [("rs2", "II DD")]) none (by decide)⟩

/-- C6: for every well-formed genotype store, verification feed and sex, every
risk card of `_build_risk_cards` (including the cards appended by the
Escalation Pass) whose combined lower-cased label/description/action text
mentions "warfarin" also contains the literal phrase "warfarin panel status:",
the substring "vkorc1", and at least one of "present"/"missing"; hence the
warfarin-disclaimer validator never raises on builder output. -/
theorem C6_warfarin_disclaimer_unreachable (g : Genotypes) (vl : VLookup)
    (sex : Option String) (hwf : genotypes_wf g) :
    (∀ c ∈ escalate_high_evidence_pgx (build_risk_cards g vl sex) g vl,
      py_in "warfarin" (card_combined_lower c) = true →
        py_in "warfarin panel status:" (card_combined_lower c) = true ∧
        py_in "vkorc1" (card_combined_lower c) = true ∧
        (py_in "present" (card_combined_lower c) = true ∨
         py_in "missing" (card_combined_lower c) = true)) ∧
    validate_warfarin_disclaimer
      (escalate_high_evidence_pgx (build_risk_cards g vl sex) g vl) = none := by
  have hall := escalated_cards_ok g vl sex hwf
  constructor
  · intro c hc hm
    exact warfarin_card_error_none_elim (hall c hc) hm
  · rw [validate_warfarin_disclaimer]
    exact List.findSome?_eq_none_iff.mpr hall

/-- Witness for C6 at a concrete store containing a VKORC1 genotype (which
produces a warfarin-mentioning card). -/
theorem C6_witness :
    genotypes_wf [("rs9923231", "TT")] ∧
    ((∀ c ∈ escalate_high_evidence_pgx
        (build_risk_cards [("rs9923231", "TT")] none none) [("rs9923231", "TT")] none,
      py_in "warfarin" (card_combined_lower c) = true →
        py_in "warfarin panel status:" (card_combined_lower c) = true ∧
        py_in "vkorc1" (card_combined_lower c) = true ∧
        (py_in "present" (card_combined_lower c) = true ∨
         py_in "missing" (card_combined_lower c) = true)) ∧
    validate_warfarin_disclaimer
      (escalate_high_evidence_pgx
        (build_risk_cards [("rs9923231", "TT")] none none)
        [("rs9923231", "TT")] none) = none) :=
  ⟨by decide, C6_warfarin_disclaimer_unreachable [("rs9923231", "TT")] none none (by decide)⟩
